import Mathlib

/-!
Verification of the post-match telemetry analysis engine (the `src/lib/analysis`
subsystem: orchestrator, four detectors, score calculator and coaching-tip
generator) against its natural-language specification.

The engine is embedded shallowly: every function below is a direct translation
of the corresponding TypeScript function, with these exact numeric conventions:

* Game coordinates, gold, levels and timestamps are integers in the input data;
  they are modelled as `Int`/`Nat`.
* `calculateDistance` computes `Math.sqrt` of an integer square.  Every
  comparison `calculateDistance p q < r` (resp. `>`) in the source is embedded
  as the exact equivalent `distSq p q < r * r` (both sides nonnegative), and
  `Math.round(calculateDistance p q)` as `roundSqrt (distSq p q)`, where
  `roundSqrt n` is the nearest integer to `Math.sqrt n` (proved to round the
  integer square root below).
* Rational-valued source expressions (benchmarks such as `7.5` CS/min, the
  `0.6` vision scale, the `0.2/0.15/0.3` score weights, values like
  `wardsPerMinute`) are embedded exactly by scaling: a comparison
  `a / b < c` becomes `10 * a < c₁₀ * b` with `c₁₀` the constant in tenths,
  and a stored rate `Math.round(10 * v) / 10` is stored as its integer
  numerator in tenths (field names carry the suffix `Tenths`).  All these
  rewritings are exact for real arithmetic; each is noted where it occurs.
* `Math.round x` (round half towards +∞ in JS) on a quotient `a / b` with
  `b > 0` is embedded as `jsRoundDiv a b = ⌊(2a + b) / (2b)⌋`.
* JS `x || d` (`0`, `""`, `undefined` are falsy; objects are truthy) is
  embedded by `jsOrNat`/`jsOrInt`/`jsOrString` on optional fields, and by
  `Option.getD` where the value is an object (always truthy).
-/

namespace Nexra

/-! ## JS-arithmetic helpers -/

/-- Round of a quotient: `jsRoundDiv a b = Math.round(a / b)` for `b > 0`
(JS rounds half towards +∞, and `⌊a/b + 1/2⌋ = ⌊(2a+b)/(2b)⌋`). -/
def jsRoundDiv (a b : Int) : Int := Int.fdiv (2 * a + b) (2 * b)

/-- Fuel-based integer square root (`isqrtAux n n` computes `⌊√n⌋`; the fuel
argument only drives structural recursion, the value recurses on `n / 4`). -/
def isqrtAux : Nat → Nat → Nat
  | 0, _ => 0
  | fuel + 1, n =>
    if n ≤ 1 then n
    else
      let s := 2 * isqrtAux fuel (n / 4)
      if (s + 1) * (s + 1) ≤ n then s + 1 else s

/-- Integer square root: `isqrt n = ⌊√n⌋` (proved equal to `Nat.sqrt` below;
defined by structural recursion so that it evaluates inside `decide`). -/
def isqrt (n : Nat) : Nat := isqrtAux n n

/-- Nearest integer to `√n`, i.e. `Math.round(Math.sqrt n)` for a natural `n`:
it is `s = ⌊√n⌋` when `n ≤ s² + s` (i.e. `√n < s + 1/2`) and `s + 1` otherwise. -/
def roundSqrt (n : Nat) : Nat :=
  let s := isqrt n
  if s * s + s < n then s + 1 else s

/-- JS `String(n).padStart(2, '0')` for `n < 60` second counts. -/
def pad2 (n : Nat) : String := if n < 10 then "0" ++ Nat.repr n else Nat.repr n

/-- Decimal rendering of a nonnegative quantity stored in tenths, as JS prints
the corresponding number literal (`65 ↦ "6.5"`, `70 ↦ "7"`). -/
def tenthsToString (t : Int) : String :=
  if t % 10 = 0 then toString (t / 10) else toString (t / 10) ++ "." ++ toString (t % 10)

/-- JS `(a / b).toFixed(1)` for naturals with `b > 0`: round `10 * a / b` half
up and print with one decimal. -/
def fixed1 (a b : Nat) : String :=
  let n := (jsRoundDiv (10 * (a : Int)) (b : Int)).toNat
  Nat.repr (n / 10) ++ "." ++ Nat.repr (n % 10)

/-- JS `o?.f || d` on a numeric field: both `undefined` and `0` are falsy. -/
def jsOrNat (o : Option Nat) (d : Nat) : Nat :=
  match o with
  | some v => if v = 0 then d else v
  | none => d

/-- JS `o?.f || d` on an integer field: both `undefined` and `0` are falsy. -/
def jsOrInt (o : Option Int) (d : Int) : Int :=
  match o with
  | some v => if v = 0 then d else v
  | none => d

/-- JS `o?.f || d` on a string field: both `undefined` and `""` are falsy. -/
def jsOrString (o : Option String) (d : String) : String :=
  match o with
  | some v => if v = "" then d else v
  | none => d

/-- Replacement of the first occurrence of a pattern in a character list
(JS `String.prototype.replace` with a string pattern). -/
def replaceFirstAux (pat repl : List Char) : List Char → List Char
  | [] => []
  | c :: rest =>
    if pat.isPrefixOf (c :: rest) then repl ++ (c :: rest).drop pat.length
    else c :: replaceFirstAux pat repl rest

/-- JS `s.replace(pat, repl)`: replace the first occurrence of `pat`. -/
def replaceFirst (s pat repl : String) : String :=
  ⟨replaceFirstAux pat.data repl.data s.data⟩

/-! ## Data model (`src/lib/analysis/types.ts`) -/

/-- Planar map coordinate. -/
structure Pos where
  x : Int
  y : Int
deriving DecidableEq, Repr

/-- Squared euclidean distance; the source's `calculateDistance` is its
square root. -/
def distSq (p q : Pos) : Int :=
  (q.x - p.x) * (q.x - p.x) + (q.y - p.y) * (q.y - p.y)

/-- Severity levels of a flagged mistake. -/
inductive Severity
  | critical
  | high
  | medium
  | low
deriving DecidableEq, Repr

/-- Game phase labels. -/
inductive Phase
  | early
  | mid
  | late
deriving DecidableEq, Repr

/-- Safety tier of a map zone. -/
inductive Safety
  | safe
  | neutral
  | danger
deriving DecidableEq, Repr

/-- Semantic map zones (the `MapZone` union type). -/
inductive MapZone
  | blue_base
  | red_base
  | blue_jungle
  | red_jungle
  | river_top
  | river_bot
  | dragon_pit
  | baron_pit
  | top_lane
  | mid_lane
  | bot_lane
deriving DecidableEq, Repr

/-- Match outcome (`'win' | 'loss'`). -/
inductive MatchOutcome
  | win
  | loss
deriving DecidableEq, Repr

/-- Per-match participant record (`MatchParticipant`). -/
structure MatchParticipant where
  participantId : Nat
  puuid : String
  championId : Nat
  championName : String
  teamId : Nat
  teamPosition : String
  kills : Nat
  deaths : Nat
  assists : Nat
  win : Bool
  totalGold : Int
  visionScore : Nat
  totalMinionsKilled : Nat
  neutralMinionsKilled : Nat
deriving DecidableEq, Repr

/-- Per-participant state inside a timeline frame (`ParticipantFrame`). -/
structure ParticipantFrame where
  participantId : Nat
  position : Pos
  currentGold : Int
  totalGold : Int
  level : Nat
  xp : Nat
  minionsKilled : Nat
  jungleMinionsKilled : Nat
  timeEnemySpentControlled : Nat
deriving DecidableEq, Repr

/-- Timeline event (`TimelineEvent`); the event kind is the source's string
tag and kind-specific fields are optional exactly as in the source. -/
structure TimelineEvent where
  type : String
  timestamp : Nat
  killerId : Option Nat := none
  victimId : Option Nat := none
  assistingParticipantIds : Option (List Nat) := none
  position : Option Pos := none
  monsterType : Option String := none
  monsterSubType : Option String := none
  killerTeamId : Option Nat := none
  wardType : Option String := none
  creatorId : Option Nat := none
deriving DecidableEq, Repr

/-- Timeline frame: timestamp, the keyed-by-participant-id state map (an
association list; JS iterates its integer-like keys in ascending numeric
order, which is the order the list is given in), and the frame's events. -/
structure TimelineFrame where
  timestamp : Nat
  participantFrames : List (Nat × ParticipantFrame)
  events : List TimelineEvent
deriving DecidableEq, Repr

/-- Lookup `frame.participantFrames[id.toString()]`. -/
def pframe (fs : List (Nat × ParticipantFrame)) (id : Nat) : Option ParticipantFrame :=
  (fs.find? (fun kv => kv.1 == id)).map (fun kv => kv.2)

/-- Nearest-ally information (`{ champion, distance }`, distance rounded). -/
structure AllyInfo where
  champion : String
  distance : Nat
deriving DecidableEq, Repr

/-- Gold context of a mistake. -/
structure GoldState where
  player : Int
  opponent : Int
  differential : Int
deriving DecidableEq, Repr

/-- Level context of a mistake. -/
structure LevelState where
  player : Nat
  opponent : Nat
deriving DecidableEq, Repr

/-- Map context of a mistake (the source stores the safety tier in `zone`). -/
structure MapState where
  zone : Safety
  nearestAlly : Option AllyInfo := none
  nearestEnemy : Option AllyInfo := none
  playerPosition : Option Pos := none
deriving DecidableEq, Repr

/-- Vision context of a mistake. -/
structure VisionState where
  playerWardsActive : Nat
  areaWarded : Bool
deriving DecidableEq, Repr

/-- CS context of a mistake. -/
structure CsState where
  player : Int
  opponent : Int
  differential : Int
deriving DecidableEq, Repr

/-- Structured context payload of a mistake. -/
structure ErrorContext where
  goldState : Option GoldState := none
  levelState : Option LevelState := none
  mapState : Option MapState := none
  visionState : Option VisionState := none
  csState : Option CsState := none
  gamePhase : Phase
deriving DecidableEq, Repr

/-- Flagged mistake as produced by a detector (`DetectedError` before the
orchestrator assigns its unique id). -/
structure DetectedError where
  type : String
  severity : Severity
  timestamp : Nat
  title : String
  description : String
  suggestion : String
  coachingNote : String
  context : ErrorContext
deriving DecidableEq, Repr

/-- Death-detector statistics. -/
structure DeathStats where
  totalDeaths : Nat
  soloDeaths : Nat
  towerdiveDeaths : Nat
  isolatedDeaths : Nat
  gangDeaths : Nat
deriving DecidableEq, Repr

/-- CS-detector statistics; `avgCSPerMinTenths` stores the source's
`avgCSPerMin = Math.round((totalCS / gameMinutes) * 10) / 10` scaled by 10. -/
structure CsStats where
  avgCSPerMinTenths : Int
  maxCSDiff : Int
  csBehindMinutes : Nat
  totalCS : Nat
deriving DecidableEq, Repr

/-- Vision-detector statistics; `wardsPerMinuteTenths` is the source's
`wardsPerMinute` scaled by 10. -/
structure VisionStats where
  totalWardsPlaced : Nat
  totalWardsKilled : Nat
  controlWardsPlaced : Nat
  wardsPerMinuteTenths : Int
deriving DecidableEq, Repr

/-- Objective-detector statistics. -/
structure ObjStats where
  dragonsContested : Nat
  dragonsLost : Nat
  baronsContested : Nat
  baronsLost : Nat
  heraldsContested : Nat
deriving DecidableEq, Repr

/-- Death-detector outcome. -/
structure DeathResult where
  errors : List DetectedError
  stats : DeathStats
deriving DecidableEq, Repr

/-- CS-detector outcome. -/
structure CsResult where
  errors : List DetectedError
  stats : CsStats
deriving DecidableEq, Repr

/-- Vision-detector outcome. -/
structure VisionResult where
  errors : List DetectedError
  stats : VisionStats
deriving DecidableEq, Repr

/-- Objective-detector outcome. -/
structure ObjResult where
  errors : List DetectedError
  stats : ObjStats
deriving DecidableEq, Repr

/-! ## Shared classifiers (`death-analyzer.ts`) -/

/-- Zone classifier `getMapZone`.  `Math.abs e < k` is `e.natAbs < k`. -/
def getMapZone (x y : Int) (playerTeamId : Nat) : MapZone × Safety :=
  let isBlueTeam := playerTeamId == 100
  if (x > 4000 ∧ x < 11000 ∧ y > 4000 ∧ y < 11000) ∧
      (x - (15000 - y)).natAbs < 3000 then
    if x < 6000 ∧ y < 6000 then (.dragon_pit, .danger)
    else if x > 9000 ∧ y > 9000 then (.baron_pit, .danger)
    else if y < 7500 then (.river_bot, .neutral)
    else (.river_top, .neutral)
  else if x < 7000 ∧ y < 7000 ∧ ¬(x < 3000 ∧ y < 3000) then
    (.blue_jungle, if isBlueTeam then .safe else .danger)
  else if x > 8000 ∧ y > 8000 ∧ ¬(x > 12000 ∧ y > 12000) then
    (.red_jungle, if isBlueTeam then .danger else .safe)
  else if (x - y).natAbs < 2000 then (.mid_lane, .neutral)
  else if y > x + 2000 then (.top_lane, .neutral)
  else if x > y + 2000 then (.bot_lane, .neutral)
  else if x < 3000 ∧ y < 3000 then
    (.blue_base, if isBlueTeam then .safe else .danger)
  else if x > 12000 ∧ y > 12000 then
    (.red_base, if isBlueTeam then .danger else .safe)
  else (.mid_lane, .neutral)

/-- Phase classifier `getGamePhase` (written identically in every detector
file): `ms / 60000 < 14 ↔ ms < 840000` and `ms / 60000 < 25 ↔ ms < 1500000`,
exact for real division. -/
def getGamePhase (timestampMs : Nat) : Phase :=
  if timestampMs < 840000 then .early
  else if timestampMs < 1500000 then .mid
  else .late

/-- Fixed blue-side structure coordinates. -/
def blueTowers : List Pos :=
  [⟨1512, 1336⟩, ⟨1169, 4287⟩, ⟨4318, 1029⟩, ⟨981, 10441⟩, ⟨6919, 1483⟩]

/-- Fixed red-side structure coordinates. -/
def redTowers : List Pos :=
  [⟨13604, 13350⟩, ⟨13866, 10648⟩, ⟨10504, 13604⟩, ⟨8955, 13607⟩, ⟨14340, 8012⟩]

/-- Tower-danger test `isUnderEnemyTower`:
`calculateDistance(position, tower) < 850 ↔ distSq position tower < 850²`. -/
def isUnderEnemyTower (position : Pos) (playerTeamId : Nat) : Bool :=
  let enemyTowers := if playerTeamId == 100 then redTowers else blueTowers
  enemyTowers.any (fun tower => decide (distSq position tower < 850 * 850))

/-- Fold step of `findNearestAlly`: the stored `distance` is
`Math.round(distance)`, and the source's comparison of the raw new distance
against the stored rounded one (`distance < nearest.distance`) is
`√d2 < m ↔ d2 < m²`. -/
def allyStep (position : Pos) (playerParticipantId : Nat)
    (participants : List MatchParticipant) (playerTeamId : Nat)
    (nearest : Option AllyInfo) (kv : Nat × ParticipantFrame) : Option AllyInfo :=
  let id := kv.1
  if id = playerParticipantId then nearest
  else
    match participants.find? (fun p => p.participantId == id) with
    | none => nearest
    | some participant =>
      if participant.teamId ≠ playerTeamId then nearest
      else
        let d2 := (distSq position kv.2.position).toNat
        match nearest with
        | none => some ⟨participant.championName, roundSqrt d2⟩
        | some cur =>
          if d2 < cur.distance * cur.distance then
            some ⟨participant.championName, roundSqrt d2⟩
          else nearest

/-- Nearest surviving ally scan `findNearestAlly`. -/
def findNearestAlly (position : Pos) (playerParticipantId : Nat)
    (frame : List (Nat × ParticipantFrame)) (participants : List MatchParticipant)
    (playerTeamId : Nat) : Option AllyInfo :=
  frame.foldl (allyStep position playerParticipantId participants playerTeamId) none

/-- Time string shared by the detectors:
`Math.floor(ts/60000) ++ ":" ++ pad(Math.floor((ts % 60000)/1000))`. -/
def timeStr (timestamp : Nat) : String :=
  Nat.repr (timestamp / 60000) ++ ":" ++ pad2 (timestamp % 60000 / 1000)

/-! ## Death detector (`death-analyzer.ts`, `analyzeDeaths`) -/

/-- Which statistics bucket a classified death increments (the gold- and
level-deficit branches increment none). -/
inductive DeathBucket
  | towerdive
  | isolated
  | gang
  | goldDeficit
  | levelDeficit
  | solo
deriving DecidableEq, Repr

/-- Context gathered for one elimination event before classification. -/
structure DeathCtx where
  timestamp : Nat
  position : Pos
  safety : Safety
  gamePhase : Phase
  wasUnderTower : Bool
  nearestAlly : Option AllyInfo
  assistCount : Nat
  goldDifferential : Int
  levelDifferential : Int
  killer : Option MatchParticipant
  playerFrame : Option ParticipantFrame
  killerFrame : Option ParticipantFrame
deriving DecidableEq, Repr

/-- Classification cascade of `analyzeDeaths`: one flagged mistake per death,
plus the statistics bucket the branch increments.  Transcribed branch by
branch from the source's `if / else if` chain. -/
def deathEventError (c : DeathCtx) : DetectedError × DeathBucket :=
  let wasGanked := c.assistCount ≥ 1
  let ts := timeStr c.timestamp
  let context : ErrorContext :=
    { goldState := some
        { player := jsOrInt (c.playerFrame.map (fun f => f.totalGold)) 0
          opponent := jsOrInt (c.killerFrame.map (fun f => f.totalGold)) 0
          differential := c.goldDifferential }
      levelState := some
        { player := jsOrNat (c.playerFrame.map (fun f => f.level)) 1
          opponent := jsOrNat (c.killerFrame.map (fun f => f.level)) 1 }
      mapState := some
        { zone := c.safety
          nearestAlly := c.nearestAlly
          nearestEnemy := c.killer.map (fun k => ⟨k.championName, 0⟩)
          playerPosition := some c.position }
      gamePhase := c.gamePhase }
  if c.wasUnderTower then
    ({ type := "positioning"
       severity := .critical
       timestamp := c.timestamp / 1000
       title := "Mort sous tour ennemie"
       description := "Tu es mort sous la tour ennemie a " ++ ts ++ ". " ++
         (if wasGanked then
           "Tu as ete pris en sandwich par " ++ Nat.repr (c.assistCount + 1) ++ " ennemis."
          else
           jsOrString (c.killer.map (fun k => k.championName)) "L\x27ennemi" ++
             " t\x27a tue sous sa tour.")
       suggestion := "Ne dive pas sans minions pour tanker la tour, et assure-toi d\x27avoir assez de degats pour finir rapidement."
       coachingNote :=
         if wasGanked then
           "Les dives coordonnes de l\x27ennemi etaient probablement telegraphes. Regarde ta minimap avant d\x27aller sous tour."
         else
           "Avant de dive, verifie que tu as: 1) Des minions, 2) Assez de HP, 3) Tes cooldowns prets."
       context := context }, .towerdive)
  else
  let rest : DetectedError × DeathBucket :=
  if wasGanked ∧ c.assistCount ≥ 2 then
    ({ type := "map-awareness"
       severity := .high
       timestamp := c.timestamp / 1000
       title := "Mort par gank multiple"
       description := "Tu as ete tue par " ++ Nat.repr (c.assistCount + 1) ++ " ennemis a " ++
         ts ++ ". " ++
         (if c.safety = .danger then "Tu etais en territoire dangereux."
          else "L\x27ennemi a bien coordonne son gank.")
       suggestion := "Place plus de wards pour voir les rotations ennemies. Joue plus safe quand tu ne vois pas plusieurs ennemis sur la map."
       coachingNote := "Avant de push ou de trade, compte les ennemis visibles sur la map. Si tu n\x27en vois pas 3+, presume qu\x27ils viennent vers toi."
       context := context }, .gang)
  else if c.goldDifferential < -1000 then
    ({ type := "trading"
       severity := .high
       timestamp := c.timestamp / 1000
       title := "Mort avec desavantage gold"
       description := "Tu es mort a " ++ ts ++ " contre " ++
         jsOrString (c.killer.map (fun k => k.championName)) "ton adversaire" ++
         " alors que tu avais " ++ Nat.repr c.goldDifferential.natAbs ++ " gold de retard."
       suggestion := "Evite les trades all-in quand tu es en retard. Farm safe et attends ton jungler ou un item powerspike."
       coachingNote := "Avec " ++ Nat.repr c.goldDifferential.natAbs ++
         " gold de retard, ton adversaire a probablement 1 item de plus que toi. Respecte ce powerspike."
       context := context }, .goldDeficit)
  else if c.levelDifferential < -1 then
    ({ type := "trading"
       severity := .medium
       timestamp := c.timestamp / 1000
       title := "Mort avec desavantage de niveau"
       description := "Tu es mort a " ++ ts ++ " avec " ++
         Nat.repr c.levelDifferential.natAbs ++ " niveau(x) de retard sur ton adversaire."
       suggestion := "Le niveau donne acces a plus de points de competence et de stats. N\x27engage pas contre quelqu\x27un de niveau superieur."
       coachingNote := "Chaque niveau donne environ 600 gold de stats. Attends d\x27egaliser avant de fight."
       context := context }, .levelDeficit)
  else
    ({ type := "positioning"
       severity := if c.gamePhase = .late then .high else .medium
       timestamp := c.timestamp / 1000
       title := "Mort evitable"
       description := "Tu es mort a " ++ ts ++ " contre " ++
         jsOrString (c.killer.map (fun k => k.championName)) "l\x27ennemi" ++
         (if wasGanked then " avec aide" else "") ++ "."
       suggestion := "Analyse ce qui t\x27a amene a cette position. Aurais-tu pu eviter ce fight?"
       coachingNote :=
         if c.gamePhase = .late then
           "En late game, une mort peut couter la partie. Sois extra prudent avec ton positionnement."
         else
           "Chaque mort donne de l\x27avantage a l\x27ennemi. Minimise tes morts pour garder le controle."
       context := context }, .solo)
  match c.nearestAlly with
  | some ally =>
    if ally.distance > 2500 then
      ({ type := "positioning"
         severity := if c.safety = .danger then .critical else .high
         timestamp := c.timestamp / 1000
         title := "Mort en position isolee"
         description := "Tu es mort a " ++ ts ++
           " alors que tu etais isole. Ton allie le plus proche (" ++ ally.champion ++
           ") etait a " ++ Nat.repr ally.distance ++ " unites."
         suggestion := "Reste proche de ton equipe, surtout quand tu n\x27as pas de vision de l\x27ennemi."
         coachingNote :=
           if c.safety = .danger then
             "Tu etais en territoire ennemi. C\x27est tres risque sans ton equipe."
           else
             "Meme en zone neutre, l\x27isolation te rend vulnerable aux picks."
         context := context }, .isolated)
    else rest
  | none => rest

/-- Context gathering for one elimination event, from the loop body of
`analyzeDeaths`. -/
def deathCtxOf (frames : List TimelineFrame) (participants : List MatchParticipant)
    (opponent : Option MatchParticipant) (playerParticipantId playerTeamId : Nat)
    (frame : TimelineFrame) (event : TimelineEvent) : DeathCtx :=
  let timestamp := event.timestamp
  let gamePhase := getGamePhase timestamp
  let position := event.position.getD ⟨7500, 7500⟩
  let safety := (getMapZone position.x position.y playerTeamId).2
  let currentFrameIndex := timestamp / 60000
  let currentFrame := (frames.get? currentFrameIndex).getD frame
  let playerFrame := pframe currentFrame.participantFrames playerParticipantId
  let killer := event.killerId.bind
    (fun k => participants.find? (fun p => p.participantId == k))
  let killerFrame :=
    match event.killerId with
    | some k => if k = 0 then none else pframe currentFrame.participantFrames k
    | none => none
  let diffs : Int × Int :=
    match opponent, playerFrame with
    | some opp, some pf =>
      match pframe currentFrame.participantFrames opp.participantId with
      | some opponentFrame =>
        (pf.totalGold - opponentFrame.totalGold, (pf.level : Int) - (opponentFrame.level : Int))
      | none => (0, 0)
    | _, _ =>
      match killerFrame, playerFrame with
      | some kf, some pf =>
        (pf.totalGold - kf.totalGold, (pf.level : Int) - (kf.level : Int))
      | _, _ => (0, 0)
  { timestamp := timestamp
    position := position
    safety := safety
    gamePhase := gamePhase
    wasUnderTower := isUnderEnemyTower position playerTeamId
    nearestAlly := findNearestAlly position playerParticipantId
      currentFrame.participantFrames participants playerTeamId
    assistCount := (event.assistingParticipantIds.getD []).length
    goldDifferential := diffs.1
    levelDifferential := diffs.2
    killer := killer
    playerFrame := playerFrame
    killerFrame := killerFrame }

/-- Elimination events of the analyzed participant, paired with the frame
they occur in, in source-loop order. -/
def deathEvents (frames : List TimelineFrame) (pid : Nat) :
    List (TimelineFrame × TimelineEvent) :=
  frames.flatMap (fun frame =>
    (frame.events.filter
      (fun e => e.type == "CHAMPION_KILL" && e.victimId == some pid)).map
      (fun e => (frame, e)))

/-- Statistics update per classified death: `totalDeaths` always increments,
plus the branch's own counter. -/
def bumpDeathStats (s : DeathStats) (b : DeathBucket) : DeathStats :=
  let s := { s with totalDeaths := s.totalDeaths + 1 }
  match b with
  | .towerdive => { s with towerdiveDeaths := s.towerdiveDeaths + 1 }
  | .isolated => { s with isolatedDeaths := s.isolatedDeaths + 1 }
  | .gang => { s with gangDeaths := s.gangDeaths + 1 }
  | .goldDeficit => s
  | .levelDeficit => s
  | .solo => { s with soloDeaths := s.soloDeaths + 1 }

/-- Death detector `analyzeDeaths`. -/
def analyzeDeaths (frames : List TimelineFrame) (participants : List MatchParticipant)
    (playerPuuid : String) : DeathResult :=
  match participants.find? (fun p => p.puuid == playerPuuid) with
  | none => ⟨[], ⟨0, 0, 0, 0, 0⟩⟩
  | some playerParticipant =>
    let playerParticipantId := playerParticipant.participantId
    let playerTeamId := playerParticipant.teamId
    let playerPosition := playerParticipant.teamPosition
    let opponent := participants.find?
      (fun p => p.teamId != playerTeamId && p.teamPosition == playerPosition)
    let classify := fun (fe : TimelineFrame × TimelineEvent) =>
      deathEventError (deathCtxOf frames participants opponent
        playerParticipantId playerTeamId fe.1 fe.2)
    let events := deathEvents frames playerParticipantId
    { errors := events.map (fun fe => (classify fe).1)
      stats := events.foldl (fun s fe => bumpDeathStats s (classify fe).2) ⟨0, 0, 0, 0, 0⟩ }

/-! ## CS detector (`cs-analyzer.ts`, `analyzeCS`) -/

/-- Expected CS per minute by game phase, stored in tenths
(`CS_BENCHMARKS`: early 7/6/5, mid 7.5/6.5/5.5, late 8/7/6). -/
structure CsBenchmark where
  goodTenths : Int
  averageTenths : Int
  poorTenths : Int
deriving DecidableEq, Repr

/-- Benchmark table `CS_BENCHMARKS`. -/
def csBenchmarkFor : Phase → CsBenchmark
  | .early => ⟨70, 60, 50⟩
  | .mid => ⟨75, 65, 55⟩
  | .late => ⟨80, 70, 60⟩

/-- Mutable loop state of `analyzeCS` (checkpoint fold accumulator). -/
structure CsLoopState where
  errors : List DetectedError
  lastReportedDiff : Int
  totalCSTracked : Nat
  csCheckpoints : Nat
  maxCSDiff : Int
  csBehindMinutes : Nat
deriving DecidableEq, Repr

/-- Checkpoint body of `analyzeCS`.  A checkpoint whose frame lacks the
player's record is skipped (`if (!playerFrame) continue`).  The rational
comparisons of the source are embedded exactly:
`csPerMin < benchmark.poor ↔ 10·playerCS < poorTenths·checkpoint`. -/
def csCheckpointStep (frames : List TimelineFrame)
    (playerParticipantId : Nat) (opponent : Option MatchParticipant)
    (isJungler : Bool) (st : CsLoopState) (checkpoint : Nat) : CsLoopState :=
  match frames.get? checkpoint with
  | none => st
  | some frame =>
    match pframe frame.participantFrames playerParticipantId with
    | none => st
    | some playerFrame =>
      let playerCS := playerFrame.minionsKilled + playerFrame.jungleMinionsKilled
      let st := { st with totalCSTracked := playerCS, csCheckpoints := st.csCheckpoints + 1 }
      let gamePhase := getGamePhase (checkpoint * 60000)
      let benchmark := csBenchmarkFor gamePhase
      let st :=
        match opponent with
        | none => st
        | some opp =>
          match pframe frame.participantFrames opp.participantId with
          | none => st
          | some opponentFrame =>
            let opponentCS := opponentFrame.minionsKilled + opponentFrame.jungleMinionsKilled
            let csDiff : Int := (playerCS : Int) - (opponentCS : Int)
            let st :=
              if csDiff.natAbs > st.maxCSDiff.natAbs then { st with maxCSDiff := csDiff }
              else st
            if csDiff < -15 ∧ csDiff < st.lastReportedDiff - 10 then
              let goldLost := csDiff.natAbs * 21
              let severity : Severity := if csDiff < -30 then .high else .medium
              { st with
                lastReportedDiff := csDiff
                csBehindMinutes := st.csBehindMinutes + 1
                errors := st.errors ++
                  [{ type := "cs-missing"
                     severity := severity
                     timestamp := checkpoint * 60
                     title := "Retard de CS a " ++ Nat.repr checkpoint ++ " min"
                     description := "Tu as " ++ Nat.repr playerCS ++ " CS contre " ++
                       Nat.repr opponentCS ++ " pour ton adversaire (" ++ toString csDiff ++
                       " CS, soit ~" ++ Nat.repr goldLost ++ " gold de retard)."
                     suggestion :=
                       if isJungler then
                         "Optimise tes clears de jungle. Ne rate pas de camps et time bien tes respawns."
                       else
                         "Focus sur le last hit. Si la lane est difficile, utilise tes sorts pour securiser les CS sous tour."
                     coachingNote :=
                       if csDiff < -30 then
                         Nat.repr csDiff.natAbs ++
                           " CS de retard est significatif. Ton adversaire a presque un item d\x27avance juste en CS."
                       else
                         "Meme 15 CS de retard represente ~300 gold. Ca s\x27accumule vite sur la duree de la partie."
                     context :=
                       { csState := some ⟨(playerCS : Int), (opponentCS : Int), csDiff⟩
                         gamePhase := gamePhase } }] }
            else st
      if opponent.isNone || isJungler then
        if 10 * (playerCS : Int) < benchmark.poorTenths * (checkpoint : Int) ∧
            checkpoint ≥ 10 then
          { st with errors := st.errors ++
              [{ type := "cs-missing"
                 severity := .medium
                 timestamp := checkpoint * 60
                 title := "CS en dessous de la moyenne a " ++ Nat.repr checkpoint ++ " min"
                 description := "Tu as " ++ Nat.repr playerCS ++ " CS (" ++
                   fixed1 playerCS checkpoint ++ " CS/min). L\x27objectif est " ++
                   tenthsToString benchmark.averageTenths ++ " CS/min minimum."
                 suggestion :=
                   if isJungler then
                     "Assure-toi de clear tous tes camps efficacement et de ne pas perdre de temps entre les ganks."
                   else
                     "Entraine-toi au last hit en practice tool. Chaque minion compte."
                 coachingNote := "A " ++ Nat.repr checkpoint ++ " min, tu devrais viser " ++
                   toString (jsRoundDiv (benchmark.averageTenths * (checkpoint : Int)) 10) ++
                   " CS. Tu en as rate " ++
                   toString (jsRoundDiv
                     (benchmark.averageTenths * (checkpoint : Int) - 10 * (playerCS : Int)) 10) ++
                   "."
                 context :=
                   { csState := some
                       ⟨(playerCS : Int),
                        jsRoundDiv (benchmark.averageTenths * (checkpoint : Int)) 10,
                        jsRoundDiv
                          (10 * (playerCS : Int) - benchmark.averageTenths * (checkpoint : Int))
                          10⟩
                     gamePhase := gamePhase } }] }
        else st
      else st

/-- Checkpoint minutes of `analyzeCS` (`[5, 10, 15, 20, 25, 30]`). -/
def csCheckpoints : List Nat := [5, 10, 15, 20, 25, 30]

/-- CS detector `analyzeCS`.  The source's `break` once
`frameIndex >= frames.length` is a `takeWhile` because the checkpoint list is
ascending.  `avgCSPerMinTenths` embeds
`Math.round((totalCS / gameMinutes) * 10) / 10` as its tenths numerator. -/
def analyzeCS (frames : List TimelineFrame) (participants : List MatchParticipant)
    (playerPuuid : String) : CsResult :=
  match participants.find? (fun p => p.puuid == playerPuuid) with
  | none => ⟨[], ⟨0, 0, 0, 0⟩⟩
  | some playerParticipant =>
    let playerParticipantId := playerParticipant.participantId
    let playerTeamId := playerParticipant.teamId
    let playerPosition := playerParticipant.teamPosition
    let opponent := participants.find?
      (fun p => p.teamId != playerTeamId && p.teamPosition == playerPosition)
    let isJungler := playerPosition == "JUNGLE"
    let taken := csCheckpoints.takeWhile (fun c => c < frames.length)
    let st := taken.foldl
      (csCheckpointStep frames playerParticipantId opponent isJungler)
      ⟨[], 0, 0, 0, 0, 0⟩
    let stats : CsStats :=
      if st.csCheckpoints > 0 ∧ frames.length > 0 then
        match frames.getLast? with
        | some lastFrame =>
          match pframe lastFrame.participantFrames playerParticipantId with
          | some lastPlayerFrame =>
            let totalCS := lastPlayerFrame.minionsKilled + lastPlayerFrame.jungleMinionsKilled
            let gameMinutes := frames.length
            { avgCSPerMinTenths := jsRoundDiv (10 * (totalCS : Int)) (gameMinutes : Int)
              maxCSDiff := st.maxCSDiff
              csBehindMinutes := st.csBehindMinutes
              totalCS := totalCS }
          | none => ⟨0, st.maxCSDiff, st.csBehindMinutes, 0⟩
        | none => ⟨0, st.maxCSDiff, st.csBehindMinutes, 0⟩
      else ⟨0, st.maxCSDiff, st.csBehindMinutes, 0⟩
    ⟨st.errors, stats⟩

/-! ## Vision detector (`vision-analyzer.ts`, `analyzeVision`) -/

/-- Vision benchmarks per game phase (`VISION_BENCHMARKS`, wards per 5 min). -/
structure VisionBenchmark where
  good : Nat
  average : Nat
  poor : Nat
deriving DecidableEq, Repr

/-- Benchmark table `VISION_BENCHMARKS`. -/
def visionBenchmarkFor : Phase → VisionBenchmark
  | .early => ⟨5, 3, 1⟩
  | .mid => ⟨8, 5, 2⟩
  | .late => ⟨10, 6, 3⟩

/-- Events of all frames belonging to 5-minute window `k`
(`Math.floor(frame.timestamp / 300000) = k`). -/
def windowEvents (frames : List TimelineFrame) (k : Nat) : List TimelineEvent :=
  (frames.filter (fun f => f.timestamp / 300000 == k)).flatMap (fun f => f.events)

/-- Wards placed by the participant in window `k`. -/
def placedInWindow (frames : List TimelineFrame) (pid k : Nat) : Nat :=
  (windowEvents frames k).countP
    (fun e => e.type == "WARD_PLACED" && e.creatorId == some pid)

/-- Control wards placed by the participant in window `k`. -/
def controlInWindow (frames : List TimelineFrame) (pid k : Nat) : Nat :=
  (windowEvents frames k).countP
    (fun e => e.type == "WARD_PLACED" && e.creatorId == some pid &&
      e.wardType == some "CONTROL_WARD")

/-- Ascending list of the distinct 5-minute window keys of the frames
(`wardsByWindow` is created per frame; JS iterates its integer keys in
ascending numeric order). -/
def windowKeys (frames : List TimelineFrame) : List Nat :=
  (List.insertionSort (fun a b => a ≤ b) (frames.map (fun f => f.timestamp / 300000))).dedup

/-- Mistakes emitted for one 5-minute window of `analyzeVision`.  The scaled
benchmark `benchmark * 0.6` for non-supports is embedded exactly:
`placed < poor · s/10 ↔ 10 · placed < poor · s` with `s = 10` for supports
and `s = 6` otherwise. -/
def visionWindowErrors (frames : List TimelineFrame) (pid : Nat) (isSupport : Bool)
    (k : Nat) : List DetectedError :=
  let placed := placedInWindow frames pid k
  let control := controlInWindow frames pid k
  let minuteStart := k * 5
  let minuteEnd := minuteStart + 5
  let gamePhase := getGamePhase (minuteStart * 60000)
  let benchmark := visionBenchmarkFor gamePhase
  let scale : Nat := if isSupport then 10 else 6
  let first :=
    if 10 * placed < scale * benchmark.poor ∧ minuteStart ≥ 10 then
      [{ type := "vision"
         severity := if gamePhase = .late then Severity.high else Severity.medium
         timestamp := minuteStart * 60
         title := "Manque de vision (" ++ Nat.repr minuteStart ++ "-" ++
           Nat.repr minuteEnd ++ " min)"
         description := "Tu n\x27as place que " ++ Nat.repr placed ++ " ward(s) entre " ++
           Nat.repr minuteStart ++ " et " ++ Nat.repr minuteEnd ++ " min. " ++
           (if isSupport then
             "En tant que support, la vision est ta responsabilite principale."
            else
             "Meme en tant que laner, tu dois contribuer a la vision.")
         suggestion :=
           if isSupport then
             "Place des wards strategiques: river, jungle ennemie, objectifs. Utilise ton Oracle Lens pour deward."
           else
             "Achete des Control Wards regulierement. Une ward peut sauver ta vie ou celle de ton equipe."
         coachingNote := "La vision gagne des games. " ++ Nat.repr placed ++
           " ward(s) en 5 min est insuffisant pour avoir une bonne lecture de la map."
         context :=
           { visionState := some
               ⟨placed, decide (10 * placed ≥ scale * benchmark.average)⟩
             gamePhase := gamePhase } }]
    else []
  let second :=
    if gamePhase ≠ .early ∧ control = 0 ∧ minuteStart ≥ 10 then
      [{ type := "vision"
         severity := Severity.low
         timestamp := minuteStart * 60
         title := "Pas de Control Ward (" ++ Nat.repr minuteStart ++ "-" ++
           Nat.repr minuteEnd ++ " min)"
         description := "Tu n\x27as pas place de Control Ward entre " ++
           Nat.repr minuteStart ++ " et " ++ Nat.repr minuteEnd ++ " min."
         suggestion := "Les Control Wards sont essentielles pour controler les zones cles (dragon, baron, jungle). Achetes-en a chaque back."
         coachingNote := "Une Control Ward coute 75 gold mais peut sauver ta vie ou reveler des embuscades. C\x27est l\x27un des meilleurs investissements du jeu."
         context :=
           { visionState := some ⟨placed, false⟩
             gamePhase := gamePhase } }]
    else []
  first ++ second

/-- Vision detector `analyzeVision`. -/
def analyzeVision (frames : List TimelineFrame) (participants : List MatchParticipant)
    (playerPuuid : String) : VisionResult :=
  match participants.find? (fun p => p.puuid == playerPuuid) with
  | none => ⟨[], ⟨0, 0, 0, 0⟩⟩
  | some playerParticipant =>
    let pid := playerParticipant.participantId
    let isSupport := playerParticipant.teamPosition == "UTILITY"
    let allEvents := frames.flatMap (fun f => f.events)
    let totalWardsPlaced := allEvents.countP
      (fun e => e.type == "WARD_PLACED" && e.creatorId == some pid)
    let totalWardsKilled := allEvents.countP
      (fun e => e.type == "WARD_KILL" && e.killerId == some pid)
    let controlWardsPlaced := allEvents.countP
      (fun e => e.type == "WARD_PLACED" && e.creatorId == some pid &&
        e.wardType == some "CONTROL_WARD")
    let errors := (windowKeys frames).flatMap (visionWindowErrors frames pid isSupport)
    let gameMinutes := frames.length
    let wardsPerMinuteTenths : Int :=
      if gameMinutes > 0 then jsRoundDiv (10 * (totalWardsPlaced : Int)) (gameMinutes : Int)
      else 0
    ⟨errors, ⟨totalWardsPlaced, totalWardsKilled, controlWardsPlaced, wardsPerMinuteTenths⟩⟩

/-! ## Objective detector (`objective-analyzer.ts`, `analyzeObjectives`) -/

/-- Fixed dragon-pit coordinate (`DRAGON_PIT`). -/
def DRAGON_PIT : Pos := ⟨9866, 4414⟩

/-- Fixed baron-pit coordinate (`BARON_PIT`); the Rift Herald also spawns
there. -/
def BARON_PIT : Pos := ⟨5007, 10471⟩

/-- Phase-dependent respawn-delay estimate in ms (15s/30s/50s). -/
def deathTimerFor : Phase → Nat
  | .early => 15000
  | .mid => 30000
  | .late => 50000

/-- Dead intervals of the analyzed participant, reconstructed from its
elimination events. -/
def playerDeathList (frames : List TimelineFrame) (pid : Nat) : List (Nat × Nat) :=
  ((frames.flatMap (fun f => f.events)).filter
    (fun e => e.type == "CHAMPION_KILL" && e.victimId == some pid)).map
    (fun e => (e.timestamp, deathTimerFor (getGamePhase e.timestamp)))

/-- Liveness check `wasPlayerDead`. -/
def wasPlayerDead (deaths : List (Nat × Nat)) (timestamp : Nat) : Bool :=
  deaths.any (fun d => timestamp > d.1 && timestamp < d.1 + d.2)

/-- Which statistics counter an elite-monster event bumps (the source only
ever increments `dragonsLost`, `baronsLost` and `heraldsContested`). -/
inductive ObjKind
  | dragon
  | baron
  | herald
deriving DecidableEq, Repr

/-- Statistics update for one counted objective event. -/
def bumpObjStats (s : ObjStats) : ObjKind → ObjStats
  | .dragon => { s with dragonsLost := s.dragonsLost + 1 }
  | .baron => { s with baronsLost := s.baronsLost + 1 }
  | .herald => { s with heraldsContested := s.heraldsContested + 1 }

/-- Player position resolution of the objective loop:
`frames[Math.floor(ts/60000)] || frame`, then
`playerFrame?.position || { x: 7500, y: 7500 }`. -/
def objPlayerPos (frames : List TimelineFrame) (pid : Nat)
    (frame : TimelineFrame) (event : TimelineEvent) : Pos :=
  let currentFrame := (frames.get? (event.timestamp / 60000)).getD frame
  ((pframe currentFrame.participantFrames pid).map (fun f => f.position)).getD ⟨7500, 7500⟩

/-- Per-event body of the objective loop of `analyzeObjectives`: the optional
mistake plus the statistics counter the event bumps.  Distance comparisons
are embedded by squares (`distance > 4000 ↔ distSq > 4000²`), and
`Math.round(distance)` as `roundSqrt distSq`. -/
def objectiveEventOutcome (frames : List TimelineFrame) (deaths : List (Nat × Nat))
    (pid playerTeamId : Nat) (isJungler : Bool)
    (frame : TimelineFrame) (event : TimelineEvent) :
    Option DetectedError × Option ObjKind :=
  if event.type ≠ "ELITE_MONSTER_KILL" then (none, none)
  else
    let timestamp := event.timestamp
    let gamePhase := getGamePhase timestamp
    let takenByEnemy := event.killerTeamId ≠ some playerTeamId
    if ¬ takenByEnemy then (none, none)
    else
      let ts := timeStr timestamp
      let playerPos := objPlayerPos frames pid frame event
      let wasDead := wasPlayerDead deaths timestamp
      match event.monsterType with
      | some "DRAGON" => objDragonCase event timestamp gamePhase ts playerPos wasDead isJungler
      | some "ELDER_DRAGON" => objDragonCase event timestamp gamePhase ts playerPos wasDead isJungler
      | some "BARON_NASHOR" =>
        let d2 := (distSq playerPos BARON_PIT).toNat
        (if ¬ wasDead ∧ d2 > 4000 * 4000 then
          some
            { type := "objective"
              severity := .critical
              timestamp := timestamp / 1000
              title := "Baron Nashor perdu"
              description := "L\x27ennemi a pris le Baron a " ++ ts ++ ". Tu etais a " ++
                Nat.repr (roundSqrt d2) ++ " unites de distance."
              suggestion := "Le Baron est l\x27objectif le plus important du mid/late game. Groupe avec ton equipe pour le contester ou le prendre."
              coachingNote := "Un Baron donne un enorme avantage en siege et en gold. Perdre un Baron sans le contester est souvent un point tournant negatif."
              context :=
                { mapState := some { zone := .danger, playerPosition := some playerPos }
                  gamePhase := gamePhase } }
         else none, some .baron)
      | some "RIFTHERALD" =>
        let d2 := (distSq playerPos BARON_PIT).toNat
        (if ¬ wasDead ∧ d2 > 5000 * 5000 ∧ gamePhase = .early then
          some
            { type := "objective"
              severity := .medium
              timestamp := timestamp / 1000
              title := "Herald perdu"
              description := "L\x27ennemi a pris le Herald a " ++ ts ++ ". Tu etais a " ++
                Nat.repr (roundSqrt d2) ++ " unites de distance."
              suggestion := "Le Herald peut detruire une tour entiere. Aide ton jungler a le secure ou au moins conteste le."
              coachingNote := "Le Herald est tres utile pour accelerer le early game. Une tour en moins ouvre la map pour ton equipe."
              context :=
                { mapState := some { zone := .neutral, playerPosition := some playerPos }
                  gamePhase := gamePhase } }
         else none, some .herald)
      | _ => (none, none)
where
  /-- Shared `'DRAGON' | 'ELDER_DRAGON'` switch case. -/
  objDragonCase (event : TimelineEvent) (timestamp : Nat) (gamePhase : Phase)
      (ts : String) (playerPos : Pos) (wasDead isJungler : Bool) :
      Option DetectedError × Option ObjKind :=
    let isElder := event.monsterType == some "ELDER_DRAGON"
    let d2 := (distSq playerPos DRAGON_PIT).toNat
    (if ¬ wasDead ∧ d2 > 4000 * 4000 then
      some
        { type := "objective"
          severity :=
            if isElder then .critical else if gamePhase = .late then .high else .medium
          timestamp := timestamp / 1000
          title :=
            if isElder then "Elder Dragon perdu"
            else "Dragon " ++
              jsOrString (event.monsterSubType.map
                (fun s => replaceFirst s "_DRAGON" "")) "" ++ " perdu"
          description := "L\x27ennemi a pris le " ++
            (if isElder then "Elder Dragon" else "Dragon") ++ " a " ++ ts ++
            ". Tu etais a " ++ Nat.repr (roundSqrt d2) ++ " unites de distance (" ++
            (if wasDead then "mort" else "vivant") ++ ")."
          suggestion :=
            if isJungler then
              "En tant que jungler, tu dois timer les objectifs et etre present. Ward la zone 1 min avant le spawn."
            else
              "Sois pret a pivoter vers le Dragon quand il spawn. Communique avec ton equipe."
          coachingNote :=
            if isElder then
              "L\x27Elder Dragon est souvent game-deciding. Tout doit etre organise autour de cet objectif."
            else
              "Le Dragon donne des buffs permanents a ton equipe. " ++
                (if d2 > 6000 * 6000 then "Tu etais beaucoup trop loin pour contester."
                 else "Rapproche-toi plus tot pour avoir le priority.")
          context :=
            { mapState := some { zone := .danger, playerPosition := some playerPos }
              gamePhase := gamePhase } }
     else none, some .dragon)

/-- Frame-event pairs in source-loop order. -/
def frameEvents (frames : List TimelineFrame) : List (TimelineFrame × TimelineEvent) :=
  frames.flatMap (fun frame => frame.events.map (fun e => (frame, e)))

/-- Objective detector `analyzeObjectives`. -/
def analyzeObjectives (frames : List TimelineFrame) (participants : List MatchParticipant)
    (playerPuuid : String) : ObjResult :=
  match participants.find? (fun p => p.puuid == playerPuuid) with
  | none => ⟨[], ⟨0, 0, 0, 0, 0⟩⟩
  | some playerParticipant =>
    let pid := playerParticipant.participantId
    let playerTeamId := playerParticipant.teamId
    let isJungler := playerParticipant.teamPosition == "JUNGLE"
    let deaths := playerDeathList frames pid
    let outcome := fun (fe : TimelineFrame × TimelineEvent) =>
      objectiveEventOutcome frames deaths pid playerTeamId isJungler fe.1 fe.2
    let fes := frameEvents frames
    { errors := fes.filterMap (fun fe => (outcome fe).1)
      stats := fes.foldl
        (fun s fe =>
          match (outcome fe).2 with
          | some k => bumpObjStats s k
          | none => s)
        ⟨0, 0, 0, 0, 0⟩ }

/-! ## Score calculator (`score-calculator.ts`, `calculateScores`) -/

/-- Category a mistake's tag maps to. -/
inductive ScoreCat
  | cs
  | vision
  | positioning
  | objective
  | trading
deriving DecidableEq, Repr

/-- Tag-to-category table `ERROR_CATEGORIES` with its default bucket
(`ERROR_CATEGORIES[error.type] || 'positioningScore'`). -/
def errCategory (t : String) : ScoreCat :=
  if t == "cs-missing" then .cs
  else if t == "vision" then .vision
  else if t == "positioning" then .positioning
  else if t == "map-awareness" then .positioning
  else if t == "objective" then .objective
  else if t == "trading" then .trading
  else if t == "timing" then .trading
  else if t == "wave-management" then .cs
  else if t == "itemization" then .trading
  else if t == "cooldown-tracking" then .trading
  else if t == "roaming" then .positioning
  else if t == "teamfight" then .positioning
  else .positioning

/-- Severity penalty weights `SEVERITY_PENALTIES`. -/
def severityPenalty : Severity → Int
  | .critical => 15
  | .high => 10
  | .medium => 5
  | .low => 2

/-- Aggregate statistics handed to the score calculator by the orchestrator;
rates are in tenths, exactly as in the detector statistics. -/
structure ScoreInputStats where
  totalDeaths : Nat
  soloDeaths : Nat
  towerdiveDeaths : Nat
  avgCSPerMinTenths : Int
  maxCSDiff : Int
  wardsPerMinuteTenths : Int
  totalWardsPlaced : Nat
  dragonsLost : Nat
  baronsLost : Nat
deriving DecidableEq, Repr

/-- Score breakdown (`ScoreBreakdown`). -/
structure ScoreBreakdown where
  overallScore : Int
  csScore : Int
  visionScore : Int
  positioningScore : Int
  objectiveScore : Int
  tradingScore : Int
deriving DecidableEq, Repr

/-- Penalty application for one mistake:
`scores[category] = Math.max(0, scores[category] - penalty)`. -/
def applyPenalty (s : ScoreBreakdown) (e : DetectedError) : ScoreBreakdown :=
  let p := severityPenalty e.severity
  match errCategory e.type with
  | .cs => { s with csScore := max 0 (s.csScore - p) }
  | .vision => { s with visionScore := max 0 (s.visionScore - p) }
  | .positioning => { s with positioningScore := max 0 (s.positioningScore - p) }
  | .objective => { s with objectiveScore := max 0 (s.objectiveScore - p) }
  | .trading => { s with tradingScore := max 0 (s.tradingScore - p) }

/-- CS-score adjustment block of `calculateScores`; the comparisons embed
`csPerMin >= 8 ↔ avgCSPerMinTenths ≥ 80`, and so on, exactly. -/
def csAdjust (st : ScoreInputStats) (scores : ScoreBreakdown) : ScoreBreakdown :=
  if st.avgCSPerMinTenths ≥ 80 then { scores with csScore := min 100 (scores.csScore + 10) }
  else if st.avgCSPerMinTenths ≥ 70 then { scores with csScore := min 100 (scores.csScore + 5) }
  else if st.avgCSPerMinTenths < 50 then { scores with csScore := max 0 (scores.csScore - 10) }
  else scores

/-- Vision-score adjustment block of `calculateScores`
(`wardsPerMin >= 1.0 ↔ wardsPerMinuteTenths ≥ 10`, ...). -/
def visionAdjust (st : ScoreInputStats) (scores : ScoreBreakdown) : ScoreBreakdown :=
  if st.wardsPerMinuteTenths ≥ 10 then
    { scores with visionScore := min 100 (scores.visionScore + 10) }
  else if st.wardsPerMinuteTenths ≥ 7 then
    { scores with visionScore := min 100 (scores.visionScore + 5) }
  else if st.wardsPerMinuteTenths < 3 then
    { scores with visionScore := max 0 (scores.visionScore - 15) }
  else scores

/-- Positioning-score adjustment block of `calculateScores`: the
deaths-per-minute tests `totalDeaths / (gameDuration / 60) < 0.2` and
`> 0.4` are embedded as `300·totalDeaths < gameDuration` and
`300·totalDeaths > 2·gameDuration`, which also agree with the JS
`Infinity`/`NaN` outcomes when `gameDuration = 0`. -/
def positioningAdjust (st : ScoreInputStats) (gameDuration : Nat)
    (scores : ScoreBreakdown) : ScoreBreakdown :=
  if 300 * (st.totalDeaths : Int) < (gameDuration : Int) then
    { scores with positioningScore := min 100 (scores.positioningScore + 10) }
  else if 300 * (st.totalDeaths : Int) > 2 * (gameDuration : Int) then
    { scores with positioningScore := max 0 (scores.positioningScore - 10) }
  else scores

/-- Objective-score adjustment block of `calculateScores` (barons lost, then
three or more dragons lost). -/
def objectiveAdjust (st : ScoreInputStats) (scores : ScoreBreakdown) : ScoreBreakdown :=
  let scores :=
    if st.baronsLost > 0 then
      { scores with objectiveScore := max 0 (scores.objectiveScore - 10 * (st.baronsLost : Int)) }
    else scores
  if st.dragonsLost ≥ 3 then
    { scores with objectiveScore := max 0 (scores.objectiveScore - 10) }
  else scores

/-- Score calculator `calculateScores`.  The overall score embeds
`Math.round(0.2·cs + 0.15·vision + 0.3·pos + 0.15·obj + 0.2·trade)` as
`jsRoundDiv (4·cs + 3·vision + 6·pos + 3·obj + 4·trade) 20`.  The source's
final `Math.round` on the five category scores is the identity because they
are integers throughout. -/
def calculateScores (errors : List DetectedError) (st : ScoreInputStats)
    (matchResult : MatchOutcome) (gameDuration : Nat) : ScoreBreakdown :=
  let scores : ScoreBreakdown := ⟨100, 100, 100, 100, 100, 100⟩
  let scores := errors.foldl applyPenalty scores
  let scores := csAdjust st scores
  let scores := visionAdjust st scores
  let scores := positioningAdjust st gameDuration scores
  let scores := objectiveAdjust st scores
  let overall := jsRoundDiv
    (4 * scores.csScore + 3 * scores.visionScore + 6 * scores.positioningScore +
      3 * scores.objectiveScore + 4 * scores.tradingScore) 20
  let overall := if matchResult = .win then min 100 (overall + 5) else overall
  { scores with overallScore := overall }

/-! ## Coaching-tip generator (`coaching-tip-generator.ts`) -/

/-- Coaching tip (`CoachingTip`). -/
structure CoachingTip where
  id : String
  category : String
  title : String
  description : String
  priority : Nat
  relatedErrors : Option (List String) := none
deriving DecidableEq, Repr

/-- Pre-defined tip bank `COACHING_TIPS`, keyed by mistake category. -/
def coachingTipBank (t : String) : Option (List CoachingTip) :=
  if t == "cs-missing" then some
    [{ id := "cs-1", category := "Farm", title := "Pratique le last hit"
       description := "Va en Practice Tool et entraine-toi a last hit sans utiliser de sorts. Vise 80+ CS a 10 min."
       priority := 1 },
     { id := "cs-2", category := "Farm", title := "CS sous tour"
       description := "Apprends le pattern: 2 coups de tour + 1 auto pour les melees, 1 coup de tour + 1 auto pour les casters (avec items de depart)."
       priority := 2 }]
  else if t == "vision" then some
    [{ id := "vision-1", category := "Vision", title := "Achete des Control Wards"
       description := "Achete une Control Ward a chaque back. Place-la dans ta jungle ou pres des objectifs."
       priority := 1 },
     { id := "vision-2", category := "Vision", title := "Ward avant les objectifs"
       description := "Place des wards 1 minute avant le spawn du Dragon/Baron pour avoir l\x27information."
       priority := 2 }]
  else if t == "positioning" then some
    [{ id := "pos-1", category := "Positionnement", title := "Reste avec ton equipe"
       description := "En mid/late game, ne te separe pas de ton equipe sauf si tu as de la vision et que tu sais ou sont les ennemis."
       priority := 1 },
     { id := "pos-2", category := "Positionnement", title := "Respecte le fog of war"
       description := "Si tu ne vois pas 3+ ennemis sur la map, joue comme s\x27ils venaient vers toi."
       priority := 2 }]
  else if t == "map-awareness" then some
    [{ id := "map-1", category := "Conscience Map", title := "Regarde ta minimap"
       description := "Force-toi a regarder ta minimap toutes les 3 secondes. C\x27est une habitude a developper."
       priority := 1 },
     { id := "map-2", category := "Conscience Map", title := "Track le jungler ennemi"
       description := "Note mentalement ou le jungler ennemi a ete vu. S\x27il etait bot, il sera top dans 30-40 sec."
       priority := 2 }]
  else if t == "objective" then some
    [{ id := "obj-1", category := "Objectifs", title := "Priorise les objectifs"
       description := "Apres un kill ou un avantage, pense toujours: \x22Quel objectif puis-je prendre?\x22"
       priority := 1 },
     { id := "obj-2", category := "Objectifs", title := "Time les objectifs"
       description := "Le Dragon respawn 5 min apres, le Baron 6 min. Prepare-toi 1 min avant."
       priority := 2 }]
  else if t == "trading" then some
    [{ id := "trade-1", category := "Trades", title := "Trade quand l\x27ennemi last hit"
       description := "Attaque l\x27ennemi quand il s\x27approche pour last hit un minion. Il doit choisir entre te frapper ou prendre le CS."
       priority := 1 },
     { id := "trade-2", category := "Trades", title := "Respecte les powerspikes"
       description := "Fais attention aux niveaux 2, 3, 6 et aux completions d\x27items. Ce sont des moments ou ton adversaire devient plus fort."
       priority := 2 }]
  else none

/-- Back-reference list built for a mistake category:
`errorIds[type]` collects `` `error-${error.timestamp}` `` per matching
mistake, in mistake order. -/
def errorRefs (errors : List DetectedError) (t : String) : List String :=
  (errors.filter (fun e => e.type == t)).map
    (fun e => "error-" ++ Nat.repr e.timestamp)

/-- Inner push loop shared by both passes of `generateCoachingTips`: skip
used tip ids, stop at 5 tips, otherwise push `mk tip`.  The accumulator is
`(tips, usedTipIds)`. -/
def tipPushLoop (mk : CoachingTip → CoachingTip)
    (acc : List CoachingTip × List String) (categoryTips : List CoachingTip) :
    List CoachingTip × List String :=
  categoryTips.foldl
    (fun acc tip =>
      if acc.2.contains tip.id then acc
      else if acc.1.length ≥ 5 then acc
      else (acc.1 ++ [mk tip], acc.2 ++ [tip.id]))
    acc

/-- Sequential reassignment of priorities (`tip.priority = index + 1`). -/
def assignPriorities : Nat → List CoachingTip → List CoachingTip
  | _, [] => []
  | i, t :: ts => { t with priority := i } :: assignPriorities (i + 1) ts

/-- Tip generator `generateCoachingTips`.  JS object iteration gives the
mistake types in first-occurrence order (`eraseDups`), then a stable
descending sort by count; the score categories are sorted ascending
(both JS sorts are stable). -/
def generateCoachingTips (errors : List DetectedError) (scores : ScoreBreakdown) :
    List CoachingTip :=
  let types := (errors.map (fun e => e.type)).eraseDups
  let entries := types.map (fun t => (t, errors.countP (fun e => e.type == t)))
  let sortedTypes :=
    (List.insertionSort (fun a b => b.2 ≤ a.2) entries).map (fun e => e.1)
  let acc := sortedTypes.foldl
    (fun acc errorType =>
      match coachingTipBank errorType with
      | none => acc
      | some categoryTips =>
        tipPushLoop
          (fun tip => { tip with relatedErrors := some ((errorRefs errors errorType).take 3) })
          acc categoryTips)
    ([], [])
  let scoreCategories : List (Int × String) :=
    [(scores.csScore, "cs-missing"), (scores.visionScore, "vision"),
     (scores.positioningScore, "positioning"), (scores.objectiveScore, "objective"),
     (scores.tradingScore, "trading")]
  let sortedCats := List.insertionSort (fun a b => a.1 ≤ b.1) scoreCategories
  let acc := sortedCats.foldl
    (fun acc sc =>
      if sc.1 < 60 ∧ acc.1.length < 5 then
        match coachingTipBank sc.2 with
        | none => acc
        | some categoryTips => tipPushLoop (fun tip => tip) acc categoryTips
      else acc)
    acc
  assignPriorities 1 acc.1

/-! ## Orchestrator (`index.ts`, `analyzeMatch`) -/

/-- Match data handed to the orchestrator (`MatchData`). -/
structure MatchData where
  matchId : String
  gameDuration : Nat
  gameMode : String
  participants : List MatchParticipant
deriving DecidableEq, Repr

/-- Timeline data handed to the orchestrator (`TimelineData`). -/
structure TimelineData where
  frames : List TimelineFrame
deriving DecidableEq, Repr

/-- Mistake with its orchestrator-assigned unique id
(`{ ...error, id: 'error-<index>-<timestamp>' }`). -/
structure IdError where
  id : String
  err : DetectedError
deriving DecidableEq, Repr

/-- Summary statistics of an `AnalysisResult`. -/
structure AnalysisStats where
  overallScore : Int
  csScore : Int
  visionScore : Int
  positioningScore : Int
  objectiveScore : Int
  tradingScore : Int
  deathsAnalyzed : Nat
  errorsFound : Nat
deriving DecidableEq, Repr

/-- Terminal analysis aggregate (`AnalysisResult`). -/
structure AnalysisResult where
  matchId : String
  puuid : String
  champion : String
  result : MatchOutcome
  duration : Nat
  errors : List IdError
  stats : AnalysisStats
  tips : List CoachingTip
deriving DecidableEq, Repr

/-- Timestamp order on mistakes, the comparator of
`allErrors.sort((a, b) => a.timestamp - b.timestamp)`. -/
def errLE (a b : DetectedError) : Prop := a.timestamp ≤ b.timestamp

instance : DecidableRel errLE := fun a b => Nat.decLe a.timestamp b.timestamp

instance : IsTotal DetectedError errLE := ⟨fun a b => Nat.le_total a.timestamp b.timestamp⟩

instance : IsTrans DetectedError errLE := ⟨fun _ _ _ => Nat.le_trans⟩

/-- Sequential id assignment of the orchestrator
(`errors.map((error, index) => ({ ...error, id: 'error-<index>-<ts>' }))`). -/
def assignIds : Nat → List DetectedError → List IdError
  | _, [] => []
  | i, e :: es =>
    ⟨"error-" ++ Nat.repr i ++ "-" ++ Nat.repr e.timestamp, e⟩ :: assignIds (i + 1) es

/-- Sequential tip-id assignment
(`tips.map((tip, index) => ({ ...tip, id: 'tip-<index>' }))`). -/
def assignTipIds : Nat → List CoachingTip → List CoachingTip
  | _, [] => []
  | i, t :: ts => { t with id := "tip-" ++ Nat.repr i } :: assignTipIds (i + 1) ts

/-- Concatenation of the four detectors' mistakes, in orchestrator order:
deaths, resources (CS), map-control (vision), objectives. -/
def allErrorsOf (frames : List TimelineFrame) (participants : List MatchParticipant)
    (playerPuuid : String) : List DetectedError :=
  (analyzeDeaths frames participants playerPuuid).errors ++
    (analyzeCS frames participants playerPuuid).errors ++
    (analyzeVision frames participants playerPuuid).errors ++
    (analyzeObjectives frames participants playerPuuid).errors

/-- Aggregate statistics the orchestrator passes to the score calculator. -/
def scoreInputOf (frames : List TimelineFrame) (participants : List MatchParticipant)
    (playerPuuid : String) : ScoreInputStats :=
  { totalDeaths := (analyzeDeaths frames participants playerPuuid).stats.totalDeaths
    soloDeaths := (analyzeDeaths frames participants playerPuuid).stats.soloDeaths
    towerdiveDeaths := (analyzeDeaths frames participants playerPuuid).stats.towerdiveDeaths
    avgCSPerMinTenths := (analyzeCS frames participants playerPuuid).stats.avgCSPerMinTenths
    maxCSDiff := (analyzeCS frames participants playerPuuid).stats.maxCSDiff
    wardsPerMinuteTenths :=
      (analyzeVision frames participants playerPuuid).stats.wardsPerMinuteTenths
    totalWardsPlaced := (analyzeVision frames participants playerPuuid).stats.totalWardsPlaced
    dragonsLost := (analyzeObjectives frames participants playerPuuid).stats.dragonsLost
    baronsLost := (analyzeObjectives frames participants playerPuuid).stats.baronsLost }

/-- Success path of the orchestrator, once the analyzed participant has been
resolved: merge and stably sort the mistakes by timestamp (ES2019
`Array.prototype.sort` is stable), compute scores and tips, assign ids and
assemble the result. -/
def buildAnalysis (matchData : MatchData) (timelineData : TimelineData)
    (playerPuuid : String) (playerParticipant : MatchParticipant) : AnalysisResult :=
  let frames := timelineData.frames
  let participants := matchData.participants
  let sorted := List.insertionSort errLE (allErrorsOf frames participants playerPuuid)
  let scores := calculateScores sorted (scoreInputOf frames participants playerPuuid)
    (if playerParticipant.win then .win else .loss) matchData.gameDuration
  let tips := generateCoachingTips sorted scores
  { matchId := matchData.matchId
    puuid := playerPuuid
    champion := playerParticipant.championName
    result := if playerParticipant.win then .win else .loss
    duration := matchData.gameDuration
    errors := assignIds 0 sorted
    stats :=
      { overallScore := scores.overallScore
        csScore := scores.csScore
        visionScore := scores.visionScore
        positioningScore := scores.positioningScore
        objectiveScore := scores.objectiveScore
        tradingScore := scores.tradingScore
        deathsAnalyzed := (analyzeDeaths frames participants playerPuuid).stats.totalDeaths
        errorsFound := sorted.length }
    tips := assignTipIds 0 tips }

/-- Orchestrator `analyzeMatch`: resolves the analyzed participant (fatal
`throw` when absent) and runs the success path. -/
def analyzeMatch (matchData : MatchData) (timelineData : TimelineData)
    (playerPuuid : String) : Except String AnalysisResult :=
  match matchData.participants.find? (fun p => p.puuid == playerPuuid) with
  | none => .error "Player not found in match participants"
  | some playerParticipant =>
    .ok (buildAnalysis matchData timelineData playerPuuid playerParticipant)

/-! ## Concrete inputs used by the witnesses and counterexamples -/

/-- Analyzed participant of the concrete match: mid-laner on the blue team. -/
def cPlayer : MatchParticipant :=
  ⟨1, "player-1", 103, "Ahri", 100, "MIDDLE", 5, 1, 3, true, 12000, 25, 180, 20⟩

/-- Lane opponent of the concrete match: mid-laner on the red team. -/
def cEnemy : MatchParticipant :=
  ⟨6, "enemy-1", 238, "Zed", 200, "MIDDLE", 3, 4, 2, false, 11000, 20, 170, 10⟩

/-- State of the analyzed participant at minute 1. -/
def cPf1 : ParticipantFrame := ⟨1, ⟨7500, 7500⟩, 500, 1000, 3, 900, 10, 0, 0⟩

/-- State of the opponent at minute 1. -/
def cPf6 : ParticipantFrame := ⟨6, ⟨7600, 7600⟩, 900, 2500, 4, 1200, 20, 0, 0⟩

/-- Concrete frame at minute 0. -/
def cFrame0 : TimelineFrame :=
  ⟨0, [(1, ⟨1, ⟨560, 580⟩, 500, 500, 1, 0, 0, 0, 0⟩), (6, ⟨6, ⟨14300, 14390⟩, 500, 500, 1, 0, 0, 0, 0⟩)], []⟩

/-- Concrete frame at minute 1, containing the analyzed participant's death
to the opponent with a 1500 gold deficit. -/
def cFrame1 : TimelineFrame :=
  ⟨60000, [(1, cPf1), (6, cPf6)],
   [{ type := "CHAMPION_KILL", timestamp := 60000, killerId := some 6,
      victimId := some 1, assistingParticipantIds := some [],
      position := some ⟨7500, 7500⟩ }]⟩

/-- Concrete match data: a 30-minute win. -/
def cMd : MatchData := ⟨"EUW1_123", 1800, "CLASSIC", [cPlayer, cEnemy]⟩

/-- Concrete timeline data. -/
def cTd : TimelineData := ⟨[cFrame0, cFrame1]⟩

/-! ## Spec-side definitions (used only to compare code against the spec) -/

/-- Death-classification cascade exactly as the spec sentence lists it
(amended: the multi-assailant-gank case carries severity high, not critical):
under-enemy-structure → isolated (nearest ally, rounded distance, beyond
2500) → multi-assailant gank (at least 2 assists) → gold differential below
−1000 → level differential below −1 → generic. -/
def specDeathCascade (wasUnderTower : Bool) (nearestAllyDistance : Option Nat)
    (assistCount : Nat) (goldDifferential levelDifferential : Int)
    (safety : Safety) (gamePhase : Phase) : DeathBucket × Severity :=
  if wasUnderTower then (.towerdive, .critical)
  else if nearestAllyDistance.any (fun d => decide (d > 2500)) then
    (.isolated, if safety = .danger then .critical else .high)
  else if assistCount ≥ 2 then (.gang, .high)
  else if goldDifferential < -1000 then (.goldDeficit, .high)
  else if levelDifferential < -1 then (.levelDeficit, .medium)
  else (.solo, if gamePhase = .late then .high else .medium)

/-- Lost-objective rule as the spec states it, amended for the Rift Herald:
for an epic-objective kill credited to the opposing team, if the analyzed
participant is alive and farther than 4000 units from the objective's fixed
pit coordinate, a mistake is emitted — severity critical for the Elder
Dragon and for Baron Nashor, high in the late phase and medium otherwise for
ordinary dragons; the Rift Herald instead uses a 5000-unit threshold, fires
only in the early phase, and carries severity medium. -/
def specLostObjective (eventType : String) (monsterType : Option String)
    (killerTeamId : Option Nat) (playerTeamId : Nat) (playerPos : Pos)
    (wasDead : Bool) (timestamp : Nat) : Option Severity :=
  if eventType ≠ "ELITE_MONSTER_KILL" then none
  else if killerTeamId = some playerTeamId then none
  else
    match monsterType with
    | some "DRAGON" =>
      if ¬ wasDead ∧ distSq playerPos DRAGON_PIT > 4000 * 4000 then
        some (if getGamePhase timestamp = .late then .high else .medium)
      else none
    | some "ELDER_DRAGON" =>
      if ¬ wasDead ∧ distSq playerPos DRAGON_PIT > 4000 * 4000 then some .critical
      else none
    | some "BARON_NASHOR" =>
      if ¬ wasDead ∧ distSq playerPos BARON_PIT > 4000 * 4000 then some .critical
      else none
    | some "RIFTHERALD" =>
      if ¬ wasDead ∧ distSq playerPos BARON_PIT > 5000 * 5000 ∧
          getGamePhase timestamp = .early then
        some .medium
      else none
    | _ => none

/-! ## Bounds predicates -/

/-- Bound required of every score: an integer in [0, 100]. -/
def scoreInBounds (x : Int) : Prop := 0 ≤ x ∧ x ≤ 100

/-- Bounds of the five category scores of a breakdown. -/
def catBounds (s : ScoreBreakdown) : Prop :=
  scoreInBounds s.csScore ∧ scoreInBounds s.visionScore ∧
    scoreInBounds s.positioningScore ∧ scoreInBounds s.objectiveScore ∧
    scoreInBounds s.tradingScore

/-! ## Further concrete inputs -/

/-- Death context in which the multi-assailant-gank branch fires: not under
a structure, no nearby ally information, two assisting participants. -/
def cGankCtx : DeathCtx :=
  { timestamp := 60000
    position := ⟨7500, 7500⟩
    safety := .neutral
    gamePhase := .early
    wasUnderTower := false
    nearestAlly := none
    assistCount := 2
    goldDifferential := 0
    levelDifferential := 0
    killer := none
    playerFrame := none
    killerFrame := none }

/-- Jungler analyzed in the Rift Herald scenario. -/
def cHPlayer : MatchParticipant :=
  ⟨1, "player-h", 64, "LeeSin", 100, "JUNGLE", 2, 2, 2, false, 9000, 15, 30, 120⟩

/-- Event of the Rift Herald scenario: the herald is killed by the enemy
team at minute 5 (early phase). -/
def cHEvent : TimelineEvent :=
  { type := "ELITE_MONSTER_KILL", timestamp := 300000,
    monsterType := some "RIFTHERALD", killerTeamId := some 200 }

/-- Frame of the Rift Herald scenario: the analyzed participant is alive at
exactly 4500 units from the herald's pit coordinate. -/
def cHFrame : TimelineFrame :=
  ⟨300000, [(1, ⟨1, ⟨9507, 10471⟩, 1000, 3000, 6, 3000, 10, 40, 0⟩)], [cHEvent]⟩

/-- Frame whose snapshot lacks the analyzed participant's record but carries
that participant's elimination event. -/
def c8Frame : TimelineFrame :=
  ⟨0, [], [{ type := "CHAMPION_KILL", timestamp := 0, killerId := some 6,
             victimId := some 1 }]⟩

/-- Timeline of the missing-record death scenario. -/
def c8Frames : List TimelineFrame := [c8Frame]

/-- Sixth frame (minute 5) of the skipped-CS-checkpoint scenario: no
per-participant records at the checkpoint. -/
def c8aFrame5 : TimelineFrame := ⟨300000, [], []⟩

/-- Timeline of the skipped-CS-checkpoint scenario: six frames, none of
which carries a record of the analyzed participant. -/
def c8aFrames : List TimelineFrame :=
  [⟨0, [], []⟩, ⟨60000, [], []⟩, ⟨120000, [], []⟩, ⟨180000, [], []⟩,
   ⟨240000, [], []⟩, c8aFrame5]

/-- Empty CS loop state. -/
def c8aState : CsLoopState := ⟨[], 0, 0, 0, 0, 0⟩

/-- Objective event for the missing-record objective scenario: a dragon taken
by the enemy team at a timestamp whose snapshot lacks the analyzed
participant's record. -/
def c8cEvent : TimelineEvent :=
  { type := "ELITE_MONSTER_KILL", timestamp := 0, monsterType := some "DRAGON",
    killerTeamId := some 200 }

/-- Frame of the missing-record objective scenario. -/
def c8cFrame : TimelineFrame := ⟨0, [], [c8cEvent]⟩

/-- Placeholder tip used only as a `getD` default in witnesses. -/
def cDummyTip : CoachingTip := ⟨"", "", "", "", 0, none⟩

/-- Placeholder mistake used only as a `getD` default in witnesses. -/
def cDummyError : DetectedError :=
  ⟨"", .low, 0, "", "", "", "", { gamePhase := .early }⟩

/-- Placeholder identified mistake used only as a `getD` default in
witnesses. -/
def cDummyIdError : IdError := ⟨"", cDummyError⟩

/-- Placeholder result used only as a `getD` default in witnesses. -/
def cDummyResult : AnalysisResult :=
  ⟨"", "", "", .loss, 0, [], ⟨0, 0, 0, 0, 0, 0, 0, 0⟩, []⟩

/-- Result of the concrete analysis run (the run succeeds, so the `getD`
default is never used). -/
def cResult : AnalysisResult :=
  ((analyzeMatch cMd cTd "player-1").toOption).getD cDummyResult

/-- Shape of every tip back-reference: `'error-' ++ <timestamp>`. -/
def RefShape (tip : CoachingTip) : Prop :=
  ∀ s ∈ tip.relatedErrors.getD [], ∃ m : Nat, s = "error-" ++ Nat.repr m

/-- Shape of every orchestrator-assigned mistake id:
`'error-' ++ <index> ++ '-' ++ <timestamp>`. -/
def IdShape (ie : IdError) : Prop :=
  ∃ j m : Nat, ie.id = "error-" ++ Nat.repr j ++ "-" ++ Nat.repr m

/-! ## Generic helper lemmas -/

theorem foldl_preserve {α β : Type} {P : β → Prop} {f : β → α → β}
    (h : ∀ b a, P b → P (f b a)) :
    ∀ (l : List α) (b : β), P b → P (l.foldl f b) := by
  intro l
  induction l with
  | nil => intro b hb; exact hb
  | cons a t ih => intro b hb; exact ih (f b a) (h b a hb)

theorem foldl_preserve_mem {α β : Type} {P : β → Prop} {f : β → α → β} :
    ∀ (l : List α), (∀ b a, a ∈ l → P b → P (f b a)) → ∀ b, P b → P (l.foldl f b) := by
  intro l
  induction l with
  | nil => intro _ b hb; exact hb
  | cons a t ih =>
    intro h b hb
    exact ih (fun b' a' ha' hb' => h b' a' (List.mem_cons_of_mem a ha') hb') (f b a)
      (h b a (List.mem_cons_self a t) hb)

theorem isqrtAux_spec :
    ∀ fuel n, n ≤ fuel →
      isqrtAux fuel n * isqrtAux fuel n ≤ n ∧
        n < (isqrtAux fuel n + 1) * (isqrtAux fuel n + 1) := by
  intro fuel
  induction fuel with
  | zero => intro n hn; interval_cases n; simp [isqrtAux]
  | succ fuel ih =>
    intro n hn
    by_cases h1 : n ≤ 1
    · unfold isqrtAux
      rw [if_pos h1]
      interval_cases n <;> simp
    · have hq : n / 4 ≤ fuel := by omega
      obtain ⟨hl, hr⟩ := ih (n / 4) hq
      unfold isqrtAux
      rw [if_neg h1]
      set t := isqrtAux fuel (n / 4) with ht
      by_cases hc : (2 * t + 1) * (2 * t + 1) ≤ n
      · rw [if_pos hc]
        have h5 : (2 * t + 1 + 1) * (2 * t + 1 + 1) = 4 * ((t + 1) * (t + 1)) := by ring
        omega
      · rw [if_neg hc]
        have h4 : 2 * t * (2 * t) = 4 * (t * t) := by ring
        have h5 : (2 * t + 1) * (2 * t + 1) = 4 * (t * t) + 4 * t + 1 := by ring
        omega

theorem isqrt_eq_sqrt (n : Nat) : isqrt n = Nat.sqrt n := by
  obtain ⟨hl, hr⟩ := isqrtAux_spec n n (Nat.le_refl n)
  have h1 : isqrt n ≤ Nat.sqrt n := Nat.le_sqrt.mpr hl
  have h2 : Nat.sqrt n < isqrt n + 1 := by
    apply Nat.sqrt_lt'.mpr
    rw [pow_two]
    exact hr
  omega

theorem distSq_nonneg (p q : Pos) : 0 ≤ distSq p q := by
  unfold distSq
  have h1 := mul_self_nonneg (q.x - p.x)
  have h2 := mul_self_nonneg (q.y - p.y)
  omega

theorem jsRoundDiv_eq_ediv (a b : Int) (hb : 0 ≤ b) :
    jsRoundDiv a b = (2 * a + b) / (2 * b) := by
  unfold jsRoundDiv
  exact Int.fdiv_eq_ediv _ (by omega)

/-! ## Score-calculator lemmas (claim C1) -/

theorem severityPenalty_nonneg (s : Severity) : 0 ≤ severityPenalty s := by
  cases s <;> decide

theorem applyPenalty_bounds (s : ScoreBreakdown) (e : DetectedError)
    (h : catBounds s) : catBounds (applyPenalty s e) := by
  have hp := severityPenalty_nonneg e.severity
  unfold catBounds scoreInBounds at h ⊢
  obtain ⟨⟨h1a, h1b⟩, ⟨h2a, h2b⟩, ⟨h3a, h3b⟩, ⟨h4a, h4b⟩, ⟨h5a, h5b⟩⟩ := h
  unfold applyPenalty
  cases errCategory e.type <;> dsimp only <;> omega

theorem csAdjust_bounds (st : ScoreInputStats) (s : ScoreBreakdown)
    (h : catBounds s) : catBounds (csAdjust st s) := by
  unfold catBounds scoreInBounds at h ⊢
  obtain ⟨⟨h1a, h1b⟩, ⟨h2a, h2b⟩, ⟨h3a, h3b⟩, ⟨h4a, h4b⟩, ⟨h5a, h5b⟩⟩ := h
  unfold csAdjust
  split_ifs <;> (try dsimp only) <;> omega

theorem visionAdjust_bounds (st : ScoreInputStats) (s : ScoreBreakdown)
    (h : catBounds s) : catBounds (visionAdjust st s) := by
  unfold catBounds scoreInBounds at h ⊢
  obtain ⟨⟨h1a, h1b⟩, ⟨h2a, h2b⟩, ⟨h3a, h3b⟩, ⟨h4a, h4b⟩, ⟨h5a, h5b⟩⟩ := h
  unfold visionAdjust
  split_ifs <;> (try dsimp only) <;> omega

theorem positioningAdjust_bounds (st : ScoreInputStats) (gd : Nat) (s : ScoreBreakdown)
    (h : catBounds s) : catBounds (positioningAdjust st gd s) := by
  unfold catBounds scoreInBounds at h ⊢
  obtain ⟨⟨h1a, h1b⟩, ⟨h2a, h2b⟩, ⟨h3a, h3b⟩, ⟨h4a, h4b⟩, ⟨h5a, h5b⟩⟩ := h
  unfold positioningAdjust
  split_ifs <;> (try dsimp only) <;> omega

theorem objectiveAdjust_bounds (st : ScoreInputStats) (s : ScoreBreakdown)
    (h : catBounds s) : catBounds (objectiveAdjust st s) := by
  unfold catBounds scoreInBounds at h ⊢
  obtain ⟨⟨h1a, h1b⟩, ⟨h2a, h2b⟩, ⟨h3a, h3b⟩, ⟨h4a, h4b⟩, ⟨h5a, h5b⟩⟩ := h
  have hb : (0 : Int) ≤ 10 * (st.baronsLost : Int) := by positivity
  unfold objectiveAdjust
  split_ifs <;> (try dsimp only) <;> omega

theorem penaltyFold_bounds (errors : List DetectedError) :
    catBounds (errors.foldl applyPenalty ⟨100, 100, 100, 100, 100, 100⟩) := by
  refine foldl_preserve (fun b a hb => applyPenalty_bounds b a hb) errors _ ?_
  unfold catBounds scoreInBounds
  norm_num

theorem calculateScores_catBounds (errors : List DetectedError)
    (st : ScoreInputStats) (mr : MatchOutcome) (gd : Nat) :
    catBounds (calculateScores errors st mr gd) := by
  have hcats := objectiveAdjust_bounds st _ (positioningAdjust_bounds st gd _
    (visionAdjust_bounds st _ (csAdjust_bounds st _ (penaltyFold_bounds errors))))
  unfold catBounds scoreInBounds at hcats ⊢
  exact hcats

theorem calculateScores_overall_bounds (errors : List DetectedError)
    (st : ScoreInputStats) (mr : MatchOutcome) (gd : Nat) :
    scoreInBounds (calculateScores errors st mr gd).overallScore := by
  have hcats := objectiveAdjust_bounds st _ (positioningAdjust_bounds st gd _
    (visionAdjust_bounds st _ (csAdjust_bounds st _ (penaltyFold_bounds errors))))
  set s := objectiveAdjust st (positioningAdjust st gd
    (visionAdjust st (csAdjust st (errors.foldl applyPenalty
      ⟨100, 100, 100, 100, 100, 100⟩)))) with hsdef
  unfold catBounds scoreInBounds at hcats
  obtain ⟨⟨a1, a2⟩, ⟨b1, b2⟩, ⟨c1, c2⟩, ⟨d1, d2⟩, ⟨e1, e2⟩⟩ := hcats
  have hov : (calculateScores errors st mr gd).overallScore =
      (if mr = .win then
        min 100 (jsRoundDiv (4 * s.csScore + 3 * s.visionScore + 6 * s.positioningScore +
          3 * s.objectiveScore + 4 * s.tradingScore) 20 + 5)
       else
        jsRoundDiv (4 * s.csScore + 3 * s.visionScore + 6 * s.positioningScore +
          3 * s.objectiveScore + 4 * s.tradingScore) 20) := by
    unfold calculateScores
    split_ifs <;> rfl
  rw [hov]
  rw [jsRoundDiv_eq_ediv _ _ (by norm_num)]
  unfold scoreInBounds
  split_ifs <;> omega

/-! ## Orchestrator extraction -/

theorem analyzeMatch_ok_build {md : MatchData} {td : TimelineData} {p : String}
    {r : AnalysisResult} (h : analyzeMatch md td p = .ok r) :
    ∃ part, md.participants.find? (fun q => q.puuid == p) = some part ∧
      r = buildAnalysis md td p part := by
  unfold analyzeMatch at h
  cases hf : md.participants.find? (fun q => q.puuid == p) with
  | none => rw [hf] at h; cases h
  | some part =>
    rw [hf] at h
    injection h with h2
    exact ⟨part, rfl, h2.symm⟩

/-! ## Claim theorems -/

/-- C1: for every input (error list, detector statistics, match result, game
duration), each of the five category scores and the overall score returned by
`calculateScores` is an integer (the scores are of type `Int`) lying in
[0, 100]; and the scores carried in any `AnalysisResult` produced by
`analyzeMatch` satisfy the same bounds. -/
theorem score_bounds_c1 :
    (∀ (errors : List DetectedError) (st : ScoreInputStats) (mr : MatchOutcome) (gd : Nat),
      scoreInBounds (calculateScores errors st mr gd).csScore ∧
        scoreInBounds (calculateScores errors st mr gd).visionScore ∧
        scoreInBounds (calculateScores errors st mr gd).positioningScore ∧
        scoreInBounds (calculateScores errors st mr gd).objectiveScore ∧
        scoreInBounds (calculateScores errors st mr gd).tradingScore ∧
        scoreInBounds (calculateScores errors st mr gd).overallScore) ∧
    (∀ (md : MatchData) (td : TimelineData) (p : String) (r : AnalysisResult),
      analyzeMatch md td p = .ok r →
        scoreInBounds r.stats.csScore ∧ scoreInBounds r.stats.visionScore ∧
          scoreInBounds r.stats.positioningScore ∧ scoreInBounds r.stats.objectiveScore ∧
          scoreInBounds r.stats.tradingScore ∧ scoreInBounds r.stats.overallScore) := by
  constructor
  · intro errors st mr gd
    obtain ⟨h1, h2, h3, h4, h5⟩ := calculateScores_catBounds errors st mr gd
    exact ⟨h1, h2, h3, h4, h5, calculateScores_overall_bounds errors st mr gd⟩
  · intro md td p r h
    obtain ⟨part, hf, hr⟩ := analyzeMatch_ok_build h
    subst hr
    obtain ⟨h1, h2, h3, h4, h5⟩ := calculateScores_catBounds
      (List.insertionSort errLE (allErrorsOf td.frames md.participants p))
      (scoreInputOf td.frames md.participants p)
      (if part.win then .win else .loss) md.gameDuration
    have h6 := calculateScores_overall_bounds
      (List.insertionSort errLE (allErrorsOf td.frames md.participants p))
      (scoreInputOf td.frames md.participants p)
      (if part.win then .win else .loss) md.gameDuration
    exact ⟨h1, h2, h3, h4, h5, h6⟩

/-- Witness for C1: the result of the concrete run has all six scores within
bounds. -/
theorem score_bounds_c1_witness :
    scoreInBounds cResult.stats.csScore ∧ scoreInBounds cResult.stats.visionScore ∧
      scoreInBounds cResult.stats.positioningScore ∧
      scoreInBounds cResult.stats.objectiveScore ∧
      scoreInBounds cResult.stats.tradingScore ∧
      scoreInBounds cResult.stats.overallScore :=
  score_bounds_c1.2 cMd cTd "player-1" cResult (by rfl)

/-- C2: the analysis is deterministic — for fixed match data, timeline data
and analyzed-player identifier, two invocations of `analyzeMatch` yield
identical `AnalysisResult` values, equal in every field (the embedding is a
pure function, and the source allocates no nondeterministic state: no clock,
no randomness, and a stable sort). -/
theorem analyzeMatch_deterministic_c2 (md : MatchData) (td : TimelineData)
    (p : String) (r1 r2 : Except String AnalysisResult)
    (h1 : analyzeMatch md td p = r1) (h2 : analyzeMatch md td p = r2) : r1 = r2 :=
  h1 ▸ h2

/-- Witness for C2: the concrete run equals itself when invoked twice. -/
theorem analyzeMatch_deterministic_c2_witness :
    analyzeMatch cMd cTd "player-1" = analyzeMatch cMd cTd "player-1" :=
  analyzeMatch_deterministic_c2 cMd cTd "player-1" _ _ rfl rfl

/-- C4: `analyzeMatch` succeeds exactly when some participant's puuid equals
the supplied identifier; otherwise it fails with no partial result (the
`Except.error` branch carries no `AnalysisResult`). -/
theorem participant_resolution_c4 (md : MatchData) (td : TimelineData) (p : String) :
    (∃ r, analyzeMatch md td p = .ok r) ↔ ∃ q ∈ md.participants, q.puuid = p := by
  constructor
  · rintro ⟨r, hr⟩
    unfold analyzeMatch at hr
    cases hf : md.participants.find? (fun q => q.puuid == p) with
    | none => rw [hf] at hr; cases hr
    | some part =>
      have hmem := List.mem_of_find?_eq_some hf
      have hpred := List.find?_some hf
      simp only [beq_iff_eq] at hpred
      exact ⟨part, hmem, hpred⟩
  · rintro ⟨q, hq, hpq⟩
    cases hf : md.participants.find? (fun q => q.puuid == p) with
    | none =>
      have := List.find?_eq_none.mp hf q hq
      simp [hpq] at this
    | some part =>
      refine ⟨buildAnalysis md td p part, ?_⟩
      unfold analyzeMatch
      rw [hf]

/-- C6 (code bug): the zone classifier never returns the dragon-pit zone for
any coordinate at all — the dragon-pit branch of `getMapZone` requires both
`x < 6000 ∧ y < 6000` and the river-band inequality `x + y > 12000`, which
are contradictory — and at pit-adjacent blue-side coordinates such as
(5500, 5500) a blue-team participant is classified `blue_jungle`/`safe`
instead of the spec's `dragon_pit`/`danger`. -/
theorem dragon_pit_unreachable_c6 :
    getMapZone 5500 5500 100 = (MapZone.blue_jungle, Safety.safe) ∧
      ∀ (x y : Int) (teamId : Nat), (getMapZone x y teamId).1 ≠ MapZone.dragon_pit := by
  constructor
  · decide
  · intro x y teamId
    unfold getMapZone
    split_ifs <;> intro hc <;>
      first
        | exact MapZone.noConfusion hc
        | omega

/-- C5 (amended): the death detector classifies every elimination of the
analyzed participant by the first-match-wins cascade of `specDeathCascade` —
under-enemy-structure (severity critical) → isolated position → multi-
assailant gank (severity high, not critical) → gold differential below
−1000 → level differential below −1 → generic. -/
theorem death_cascade_c5_amended (c : DeathCtx) :
    ((deathEventError c).2, (deathEventError c).1.severity) =
      specDeathCascade c.wasUnderTower (c.nearestAlly.map AllyInfo.distance)
        c.assistCount c.goldDifferential c.levelDifferential c.safety c.gamePhase := by
  unfold deathEventError specDeathCascade
  rcases hna : c.nearestAlly with _ | ally <;>
    simp only [hna, Option.map_none', Option.map_some', Option.any_none,
      Option.any_some, decide_eq_true_eq] <;>
    cases hwt : c.wasUnderTower <;>
    simp only [Bool.false_eq_true, if_false, if_true] <;>
    split_ifs <;>
    first
      | rfl
      | omega

/-- Counterexample to C5 as stated: a death with two assisting participants,
not under a structure and not isolated, is classified in the multi-assailant
gank bucket with severity high, not critical. -/
theorem death_cascade_c5_counterexample :
    (deathEventError cGankCtx).2 = DeathBucket.gang ∧
      (deathEventError cGankCtx).1.severity = Severity.high ∧
      Severity.high ≠ Severity.critical := by decide

/-- C7 (amended): for every event, the mistake emitted by the per-event body
of the objective detector has exactly the severity demanded by the amended
lost-objective rule `specLostObjective`: 4000-unit threshold for dragons
(elder critical, otherwise high in late phase and medium before) and for
Baron Nashor (critical), but a 5000-unit threshold restricted to the early
phase with severity medium for the Rift Herald. -/
theorem objective_threshold_c7_amended (frames : List TimelineFrame)
    (deaths : List (Nat × Nat)) (pid team : Nat) (isJ : Bool)
    (frame : TimelineFrame) (event : TimelineEvent) :
    ((objectiveEventOutcome frames deaths pid team isJ frame event).1).map
        DetectedError.severity =
      specLostObjective event.type event.monsterType event.killerTeamId team
        (objPlayerPos frames pid frame event) (wasPlayerDead deaths event.timestamp)
        event.timestamp := by
  have hdd := distSq_nonneg (objPlayerPos frames pid frame event) DRAGON_PIT
  have hdb := distSq_nonneg (objPlayerPos frames pid frame event) BARON_PIT
  unfold objectiveEventOutcome specLostObjective
  by_cases ht : event.type = "ELITE_MONSTER_KILL"
  · simp only [ht, ne_eq, not_true_eq_false, if_false, ite_false]
    by_cases hk : event.killerTeamId = some team
    · simp [hk]
    · simp only [hk, not_false_eq_true, not_not, if_false, if_true, ite_true, ite_false]
      rcases hmt : event.monsterType with _ | s
      · simp
      · unfold objectiveEventOutcome.objDragonCase
        by_cases h1 : s = "DRAGON"
        · subst h1
          simp only [hmt]
          split_ifs <;> simp_all <;> omega
        · by_cases h2 : s = "ELDER_DRAGON"
          · subst h2
            simp only [hmt]
            split_ifs <;> simp_all <;> omega
          · by_cases h3 : s = "BARON_NASHOR"
            · subst h3
              simp only [hmt]
              split_ifs <;> simp_all <;> omega
            · by_cases h4 : s = "RIFTHERALD"
              · subst h4
                simp only [hmt]
                split_ifs <;> simp_all <;> omega
              · simp [h1, h2, h3, h4]
  · simp [ht]

/-- Counterexample to C7 as stated: a Rift Herald kill credited to the enemy
team while the analyzed participant is alive and 4500 (> 4000) units from
the herald's pit coordinate produces no mistake at all — the detector
counts the event but its errors list stays empty, because the herald case
uses a 5000-unit threshold. -/
theorem objective_threshold_c7_counterexample :
    (analyzeObjectives [cHFrame] [cHPlayer] "player-h").errors = [] ∧
      (analyzeObjectives [cHFrame] [cHPlayer] "player-h").stats.heraldsContested = 1 ∧
      cHEvent.killerTeamId ≠ some cHPlayer.teamId ∧
      wasPlayerDead (playerDeathList [cHFrame] 1) cHEvent.timestamp = false ∧
      distSq (objPlayerPos [cHFrame] 1 cHFrame cHEvent) BARON_PIT > 4000 * 4000 ∧
      getGamePhase cHEvent.timestamp = Phase.early := by decide

/-! ## Sorting lemmas (claim C3) -/

theorem filter_orderedInsert_ts (t : Nat) (a : DetectedError) (l : List DetectedError) :
    (List.orderedInsert errLE a l).filter (fun e => e.timestamp == t) =
      if a.timestamp == t then a :: l.filter (fun e => e.timestamp == t)
      else l.filter (fun e => e.timestamp == t) := by
  induction l with
  | nil =>
    by_cases h : a.timestamp == t <;> simp [List.orderedInsert, List.filter_cons, h]
  | cons b l ih =>
    by_cases hab : errLE a b
    · by_cases h : a.timestamp == t <;>
        simp [List.orderedInsert, hab, List.filter_cons, h]
    · simp only [List.orderedInsert, if_neg hab, List.filter_cons]
      by_cases hb : b.timestamp == t
      · have hat : ¬ (a.timestamp == t) = true := by
          unfold errLE at hab
          simp only [beq_iff_eq] at hb ⊢
          omega
        simp [hb, hat, ih]
      · simp [hb, ih]

theorem filter_insertionSort_ts (t : Nat) (l : List DetectedError) :
    (List.insertionSort errLE l).filter (fun e => e.timestamp == t) =
      l.filter (fun e => e.timestamp == t) := by
  induction l with
  | nil => simp
  | cons e rest ih =>
    simp only [List.insertionSort, filter_orderedInsert_ts, List.filter_cons]
    by_cases h : e.timestamp == t <;> simp [h, ih]

theorem assignIds_map_ts : ∀ (i : Nat) (l : List DetectedError),
    (assignIds i l).map (fun ie => ie.err.timestamp) = l.map (fun e => e.timestamp) := by
  intro i l
  induction l generalizing i with
  | nil => rfl
  | cons e es ih => simp [assignIds, ih]

theorem assignIds_filter_map (p : DetectedError → Bool) : ∀ (i : Nat) (l : List DetectedError),
    ((assignIds i l).filter (fun ie => p ie.err)).map IdError.err = l.filter p := by
  intro i l
  induction l generalizing i with
  | nil => rfl
  | cons e es ih =>
    by_cases h : p e <;> simp [assignIds, List.filter_cons, h, ih]

theorem buildAnalysis_errors (md : MatchData) (td : TimelineData) (p : String)
    (part : MatchParticipant) :
    (buildAnalysis md td p part).errors =
      assignIds 0 (List.insertionSort errLE (allErrorsOf td.frames md.participants p)) := rfl

/-- C3: in every result produced by the orchestrator, the mistakes are sorted
non-decreasing by timestamp, and among mistakes of any fixed timestamp `t`
the detector-emission order is preserved: the `t`-stamped sublist of the
result equals the `t`-stamped sublist of `allErrorsOf` — deaths first, then
resources (CS), then map-control (vision), then objectives. -/
theorem mistake_ordering_c3 (md : MatchData) (td : TimelineData) (p : String)
    (r : AnalysisResult) (t : Nat) (h : analyzeMatch md td p = .ok r) :
    List.Sorted (fun a b => a ≤ b) (r.errors.map (fun ie => ie.err.timestamp)) ∧
      (r.errors.filter (fun ie => ie.err.timestamp == t)).map IdError.err =
        (allErrorsOf td.frames md.participants p).filter (fun e => e.timestamp == t) := by
  obtain ⟨part, hf, hr⟩ := analyzeMatch_ok_build h
  subst hr
  constructor
  · rw [buildAnalysis_errors, assignIds_map_ts]
    have hs := List.sorted_insertionSort errLE (allErrorsOf td.frames md.participants p)
    exact List.Pairwise.map _ (fun a b hab => hab) hs
  · rw [buildAnalysis_errors,
      assignIds_filter_map (fun e => e.timestamp == t) 0
        (List.insertionSort errLE (allErrorsOf td.frames md.participants p)),
      filter_insertionSort_ts]

/-- Witness for C3: the concrete run's mistakes are time-sorted and its
60-second mistakes match the detector concatenation. -/
theorem mistake_ordering_c3_witness :
    List.Sorted (fun a b => a ≤ b) (cResult.errors.map (fun ie => ie.err.timestamp)) ∧
      (cResult.errors.filter (fun ie => ie.err.timestamp == 60)).map IdError.err =
        (allErrorsOf cTd.frames cMd.participants "player-1").filter
          (fun e => e.timestamp == 60) :=
  mistake_ordering_c3 cMd cTd "player-1" cResult 60 (by rfl)

/-! ## Tip-cap lemmas (claim C9) -/

theorem tipPushLoop_length (mkfn : CoachingTip → CoachingTip)
    (acc : List CoachingTip × List String) (l : List CoachingTip)
    (h : acc.1.length ≤ 5) : (tipPushLoop mkfn acc l).1.length ≤ 5 := by
  unfold tipPushLoop
  refine @foldl_preserve _ _ (fun acc : List CoachingTip × List String => acc.1.length ≤ 5)
    _ ?_ l acc h
  intro b a hb
  dsimp only
  split_ifs with h1 h2
  · exact hb
  · exact hb
  · simp only [List.length_append, List.length_cons, List.length_nil]
    omega

theorem assignPriorities_length : ∀ (i : Nat) (l : List CoachingTip),
    (assignPriorities i l).length = l.length := by
  intro i l
  induction l generalizing i with
  | nil => rfl
  | cons a l ih => simp [assignPriorities, ih]

theorem assignTipIds_length : ∀ (i : Nat) (l : List CoachingTip),
    (assignTipIds i l).length = l.length := by
  intro i l
  induction l generalizing i with
  | nil => rfl
  | cons a l ih => simp [assignTipIds, ih]

theorem generateCoachingTips_length_le (errors : List DetectedError)
    (scores : ScoreBreakdown) : (generateCoachingTips errors scores).length ≤ 5 := by
  unfold generateCoachingTips
  rw [assignPriorities_length]
  refine @foldl_preserve _ _ (fun acc : List CoachingTip × List String => acc.1.length ≤ 5)
    _ ?_ _ _ ?_
  · intro b a hb
    dsimp only
    split_ifs with h1
    · cases hbank : coachingTipBank a.2 with
      | none => simpa [hbank] using hb
      | some l =>
        simp only [hbank]
        exact tipPushLoop_length _ _ _ hb
    · exact hb
  · refine @foldl_preserve _ _ (fun acc : List CoachingTip × List String => acc.1.length ≤ 5)
      _ ?_ _ _ ?_
    · intro b a hb
      dsimp only
      cases hbank : coachingTipBank a with
      | none => simpa [hbank] using hb
      | some l =>
        simp only [hbank]
        exact tipPushLoop_length _ _ _ hb
    · simp

theorem buildAnalysis_tips (md : MatchData) (td : TimelineData) (p : String)
    (part : MatchParticipant) :
    (buildAnalysis md td p part).tips =
      assignTipIds 0 (generateCoachingTips
        (List.insertionSort errLE (allErrorsOf td.frames md.participants p))
        (calculateScores (List.insertionSort errLE (allErrorsOf td.frames md.participants p))
          (scoreInputOf td.frames md.participants p)
          (if part.win then .win else .loss) md.gameDuration)) := rfl

/-- C9: the coaching-tip generator returns at most 5 tips for every error
list and score breakdown, and every `AnalysisResult` produced by the
orchestrator carries at most 5 tips. -/
theorem tip_cap_c9 :
    (∀ (errors : List DetectedError) (scores : ScoreBreakdown),
      (generateCoachingTips errors scores).length ≤ 5) ∧
    (∀ (md : MatchData) (td : TimelineData) (p : String) (r : AnalysisResult),
      analyzeMatch md td p = .ok r → r.tips.length ≤ 5) := by
  constructor
  · exact generateCoachingTips_length_le
  · intro md td p r h
    obtain ⟨part, hf, hr⟩ := analyzeMatch_ok_build h
    subst hr
    rw [buildAnalysis_tips, assignTipIds_length]
    exact generateCoachingTips_length_le _ _

/-- Witness for C9: the concrete run produces at most 5 tips. -/
theorem tip_cap_c9_witness : cResult.tips.length ≤ 5 :=
  tip_cap_c9.2 cMd cTd "player-1" cResult (by rfl)

/-! ## Missing-snapshot lemmas (claim C8) -/

theorem csCheckpointStep_skip (frames : List TimelineFrame) (pid : Nat)
    (opp : Option MatchParticipant) (isJ : Bool) (st : CsLoopState) (c : Nat)
    (fr : TimelineFrame) (h1 : frames.get? c = some fr)
    (h2 : pframe fr.participantFrames pid = none) :
    csCheckpointStep frames pid opp isJ st c = st := by
  unfold csCheckpointStep
  simp only [h1, h2]

theorem deathEventError_missing_record (c : DeathCtx) (h : c.playerFrame = none) :
    (deathEventError c).1.context.goldState =
      some ⟨0, jsOrInt (c.killerFrame.map (fun f => f.totalGold)) 0, c.goldDifferential⟩ ∧
      (deathEventError c).1.context.levelState =
        some ⟨1, jsOrNat (c.killerFrame.map (fun f => f.level)) 1⟩ := by
  unfold deathEventError
  rcases hna : c.nearestAlly with _ | ally <;>
    simp only [hna] <;>
    split_ifs <;>
    simp [h, jsOrInt, jsOrNat]

theorem analyzeDeaths_no_skip (frames : List TimelineFrame)
    (parts : List MatchParticipant) (puuid : String) (part : MatchParticipant)
    (h : parts.find? (fun q => q.puuid == puuid) = some part) :
    (analyzeDeaths frames parts puuid).errors.length =
      (deathEvents frames part.participantId).length := by
  unfold analyzeDeaths
  simp only [h, List.length_map]

theorem objectiveEventOutcome_missing_record (frames : List TimelineFrame)
    (deaths : List (Nat × Nat)) (pid team : Nat) (isJ : Bool)
    (frame : TimelineFrame) (event : TimelineEvent)
    (h : pframe ((frames.get? (event.timestamp / 60000)).getD frame).participantFrames pid =
      none) :
    (objectiveEventOutcome frames deaths pid team isJ frame event).1 = none := by
  have hpos : objPlayerPos frames pid frame event = ⟨7500, 7500⟩ := by
    have h' := h
    simp only [List.get?_eq_getElem?] at h'
    simp [objPlayerPos, h']
  have hdrag : ¬ ((distSq (⟨7500, 7500⟩ : Pos) DRAGON_PIT).toNat > 4000 * 4000) := by decide
  have hbar : ¬ ((distSq (⟨7500, 7500⟩ : Pos) BARON_PIT).toNat > 4000 * 4000) := by decide
  have hher : ¬ ((distSq (⟨7500, 7500⟩ : Pos) BARON_PIT).toNat > 5000 * 5000) := by decide
  unfold objectiveEventOutcome
  by_cases ht : event.type = "ELITE_MONSTER_KILL"
  · simp only [ht, ne_eq, not_true_eq_false, if_false, ite_false]
    by_cases hk : event.killerTeamId = some team
    · simp [hk]
    · simp only [hk, not_false_eq_true, not_not, ite_true, ite_false, if_false, if_true]
      rcases hmt : event.monsterType with _ | s
      · simp
      · unfold objectiveEventOutcome.objDragonCase
        by_cases h1 : s = "DRAGON"
        · subst h1
          simp [hmt, hpos, hdrag]
        · by_cases h2 : s = "ELDER_DRAGON"
          · subst h2
            simp [hmt, hpos, hdrag]
          · by_cases h3 : s = "BARON_NASHOR"
            · subst h3
              simp [hmt, hpos, hbar]
            · by_cases h4 : s = "RIFTHERALD"
              · subst h4
                simp [hmt, hpos, hher]
              · simp [h1, h2, h3, h4]
  · simp [ht]

/-- C8 (amended): a CS checkpoint whose snapshot lacks the analyzed
participant's record is skipped and contributes nothing; but elimination
events are not skipped — the death detector still emits one mistake per
elimination, substituting default gold 0 and level 1 for the missing
record — and the objective detector substitutes the fabricated center
position (7500, 7500) for a missing record, which happens to lie within
every proximity threshold, so such objective events yield no mistake. -/
theorem missing_snapshot_c8_amended :
    (∀ (frames : List TimelineFrame) (pid : Nat) (opp : Option MatchParticipant)
        (isJ : Bool) (st : CsLoopState) (c : Nat) (fr : TimelineFrame),
      frames.get? c = some fr → pframe fr.participantFrames pid = none →
        csCheckpointStep frames pid opp isJ st c = st) ∧
    (∀ c : DeathCtx, c.playerFrame = none →
      (deathEventError c).1.context.goldState =
        some ⟨0, jsOrInt (c.killerFrame.map (fun f => f.totalGold)) 0, c.goldDifferential⟩ ∧
        (deathEventError c).1.context.levelState =
          some ⟨1, jsOrNat (c.killerFrame.map (fun f => f.level)) 1⟩) ∧
    (∀ (frames : List TimelineFrame) (parts : List MatchParticipant) (puuid : String)
        (part : MatchParticipant),
      parts.find? (fun q => q.puuid == puuid) = some part →
        (analyzeDeaths frames parts puuid).errors.length =
          (deathEvents frames part.participantId).length) ∧
    (∀ (frames : List TimelineFrame) (deaths : List (Nat × Nat)) (pid team : Nat)
        (isJ : Bool) (frame : TimelineFrame) (event : TimelineEvent),
      pframe ((frames.get? (event.timestamp / 60000)).getD frame).participantFrames pid =
          none →
        (objectiveEventOutcome frames deaths pid team isJ frame event).1 = none) :=
  ⟨csCheckpointStep_skip, deathEventError_missing_record, analyzeDeaths_no_skip,
    objectiveEventOutcome_missing_record⟩

/-- Counterexample to C8 as stated: an elimination event whose snapshot has
no record of the analyzed participant is not skipped — the death detector
emits one mistake, with fabricated gold 0, level 1 and center position
(7500, 7500) in its context. -/
theorem missing_snapshot_c8_counterexample :
    (c8Frames.get? 0).map (fun fr => pframe fr.participantFrames cPlayer.participantId) =
        some none ∧
      (analyzeDeaths c8Frames [cPlayer] "player-1").errors.length = 1 ∧
      ((analyzeDeaths c8Frames [cPlayer] "player-1").errors.getD 0 cDummyError).context.goldState =
        some ⟨0, 0, 0⟩ ∧
      ((analyzeDeaths c8Frames [cPlayer] "player-1").errors.getD 0
          cDummyError).context.levelState = some ⟨1, 1⟩ ∧
      ((analyzeDeaths c8Frames [cPlayer] "player-1").errors.getD 0
          cDummyError).context.mapState =
        some ⟨Safety.neutral, none, none, some ⟨7500, 7500⟩⟩ := by decide

/-- Witness for C8: the four parts of the amended claim applied at concrete
inputs. -/
theorem missing_snapshot_c8_witness :
    csCheckpointStep c8aFrames 1 none false c8aState 5 = c8aState ∧
      (deathEventError cGankCtx).1.context.goldState = some ⟨0, 0, 0⟩ ∧
      (analyzeDeaths c8Frames [cPlayer] "player-1").errors.length =
        (deathEvents c8Frames cPlayer.participantId).length ∧
      (objectiveEventOutcome [c8cFrame] [] 1 100 false c8cFrame c8cEvent).1 = none :=
  ⟨missing_snapshot_c8_amended.1 c8aFrames 1 none false c8aState 5 c8aFrame5
      (by rfl) (by rfl),
    (missing_snapshot_c8_amended.2.1 cGankCtx (by rfl)).1,
    missing_snapshot_c8_amended.2.2.1 c8Frames [cPlayer] "player-1" cPlayer (by rfl),
    missing_snapshot_c8_amended.2.2.2 [c8cFrame] [] 1 100 false c8cFrame c8cEvent (by rfl)⟩

/-! ## Id-shape lemmas (claim C10) -/

theorem digitChar_ne_dash (n : Nat) : Nat.digitChar n ≠ '-' := by
  by_cases h : n < 16
  · interval_cases n <;> decide
  · unfold Nat.digitChar
    repeat rw [if_neg (by omega)]
    decide

theorem toDigitsCore_ne_dash (b : Nat) :
    ∀ (fuel n : Nat) (ds : List Char), (∀ c ∈ ds, c ≠ '-') →
      ∀ c ∈ Nat.toDigitsCore b fuel n ds, c ≠ '-' := by
  intro fuel
  induction fuel with
  | zero =>
    intro n ds hds c hc
    simp only [Nat.toDigitsCore] at hc
    exact hds c hc
  | succ fuel ih =>
    intro n ds hds c hc
    simp only [Nat.toDigitsCore] at hc
    split at hc
    · rcases List.mem_cons.mp hc with rfl | hmem
      · exact digitChar_ne_dash _
      · exact hds c hmem
    · refine ih (n / b) (Nat.digitChar (n % b) :: ds) ?_ c hc
      intro c' hc'
      rcases List.mem_cons.mp hc' with rfl | hmem
      · exact digitChar_ne_dash _
      · exact hds c' hmem

theorem repr_ne_dash (n : Nat) : ∀ c ∈ (Nat.repr n).data, c ≠ '-' := by
  intro c hc
  have hdata : (Nat.repr n).data = Nat.toDigitsCore 10 (n + 1) n [] := rfl
  rw [hdata] at hc
  exact toDigitsCore_ne_dash 10 (n + 1) n [] (by simp) c hc

theorem ref_ne_id (n j t : Nat) :
    ("error-" ++ Nat.repr n) ≠ ("error-" ++ Nat.repr j ++ "-" ++ Nat.repr t) := by
  intro h
  have hd := congrArg String.data h
  simp only [String.data_append, List.append_assoc] at hd
  have hcancel := List.append_cancel_left hd
  have hmem : '-' ∈ (Nat.repr n).data := by
    rw [hcancel]
    refine List.mem_append.mpr (Or.inr (List.mem_append.mpr (Or.inl ?_)))
    decide
  exact repr_ne_dash n '-' hmem rfl

theorem errorRefs_shape (errors : List DetectedError) (ty : String) :
    ∀ s ∈ errorRefs errors ty, ∃ m : Nat, s = "error-" ++ Nat.repr m := by
  intro s hs
  unfold errorRefs at hs
  rcases List.mem_map.mp hs with ⟨e, _, rfl⟩
  exact ⟨e.timestamp, rfl⟩

theorem bank_relatedErrors_none (ty : String) (l : List CoachingTip)
    (h : coachingTipBank ty = some l) : ∀ tip ∈ l, tip.relatedErrors = none := by
  unfold coachingTipBank at h
  split_ifs at h <;> cases h <;> intro tip htip <;> fin_cases htip <;> rfl

theorem tipPushLoop_refShape (mkfn : CoachingTip → CoachingTip)
    (acc : List CoachingTip × List String) (l : List CoachingTip)
    (hacc : ∀ tip ∈ acc.1, RefShape tip) (hmk : ∀ tip ∈ l, RefShape (mkfn tip)) :
    ∀ tip ∈ (tipPushLoop mkfn acc l).1, RefShape tip := by
  unfold tipPushLoop
  refine @foldl_preserve_mem _ _ (fun acc : List CoachingTip × List String =>
    ∀ tip ∈ acc.1, RefShape tip) _ l ?_ acc hacc
  intro b a ha hb
  dsimp only
  split_ifs with h1 h2
  · exact hb
  · exact hb
  · intro tip htip
    rcases List.mem_append.mp htip with hmem | hmem
    · exact hb tip hmem
    · rcases List.mem_singleton.mp hmem with rfl
      exact hmk a ha

theorem assignPriorities_refShape : ∀ (i : Nat) (l : List CoachingTip),
    (∀ tip ∈ l, RefShape tip) → ∀ tip ∈ assignPriorities i l, RefShape tip := by
  intro i l
  induction l generalizing i with
  | nil => intro _ tip htip; cases htip
  | cons a l ih =>
    intro hl tip htip
    rcases List.mem_cons.mp htip with rfl | hmem
    · have := hl a (List.mem_cons_self a l)
      unfold RefShape at this ⊢
      exact this
    · exact ih (i + 1) (fun t ht => hl t (List.mem_cons_of_mem a ht)) tip hmem

theorem assignTipIds_refShape : ∀ (i : Nat) (l : List CoachingTip),
    (∀ tip ∈ l, RefShape tip) → ∀ tip ∈ assignTipIds i l, RefShape tip := by
  intro i l
  induction l generalizing i with
  | nil => intro _ tip htip; cases htip
  | cons a l ih =>
    intro hl tip htip
    rcases List.mem_cons.mp htip with rfl | hmem
    · have := hl a (List.mem_cons_self a l)
      unfold RefShape at this ⊢
      exact this
    · exact ih (i + 1) (fun t ht => hl t (List.mem_cons_of_mem a ht)) tip hmem

theorem generateCoachingTips_refShape (errors : List DetectedError)
    (scores : ScoreBreakdown) :
    ∀ tip ∈ generateCoachingTips errors scores, RefShape tip := by
  unfold generateCoachingTips
  apply assignPriorities_refShape
  refine @foldl_preserve _ _ (fun acc : List CoachingTip × List String =>
    ∀ tip ∈ acc.1, RefShape tip) _ ?_ _ _ ?_
  · intro b a hb
    dsimp only
    split_ifs with h1
    · cases hbank : coachingTipBank a.2 with
      | none => simpa [hbank] using hb
      | some l =>
        simp only [hbank]
        refine tipPushLoop_refShape _ _ _ hb ?_
        intro tip htip
        unfold RefShape
        rw [bank_relatedErrors_none a.2 l hbank tip htip]
        intro s hs
        cases hs
    · exact hb
  · refine @foldl_preserve _ _ (fun acc : List CoachingTip × List String =>
      ∀ tip ∈ acc.1, RefShape tip) _ ?_ _ _ ?_
    · intro b a hb
      dsimp only
      cases hbank : coachingTipBank a with
      | none => simpa [hbank] using hb
      | some l =>
        simp only [hbank]
        refine tipPushLoop_refShape _ _ _ hb ?_
        intro tip htip
        unfold RefShape
        dsimp only
        intro s hs
        exact errorRefs_shape errors a s (List.mem_of_mem_take hs)
    · intro tip htip
      cases htip

theorem assignIds_idShape : ∀ (i : Nat) (l : List DetectedError) (ie : IdError),
    ie ∈ assignIds i l → IdShape ie := by
  intro i l
  induction l generalizing i with
  | nil => intro ie hie; cases hie
  | cons e es ih =>
    intro ie hie
    rcases List.mem_cons.mp hie with rfl | hmem
    · exact ⟨i, e.timestamp, rfl⟩
    · exact ih (i + 1) ie hmem

/-- C10: in every `AnalysisResult` produced by the orchestrator, no coaching
tip's back-reference (built as `'error-<timestamp>'`) ever equals the id of
a mistake in the same result's errors list (built as
`'error-<index>-<timestamp>'`): a decimal timestamp contains no dash, so the
two shapes can never coincide. -/
theorem tip_backrefs_c10 (md : MatchData) (td : TimelineData) (p : String)
    (r : AnalysisResult) (tip : CoachingTip) (s : String) (ie : IdError)
    (h : analyzeMatch md td p = .ok r) (htip : tip ∈ r.tips)
    (hs : s ∈ tip.relatedErrors.getD []) (hie : ie ∈ r.errors) : s ≠ ie.id := by
  obtain ⟨part, hf, hr⟩ := analyzeMatch_ok_build h
  subst hr
  rw [buildAnalysis_tips] at htip
  rw [buildAnalysis_errors] at hie
  have h1 : RefShape tip :=
    assignTipIds_refShape 0 _ (generateCoachingTips_refShape _ _) tip htip
  have h2 : IdShape ie := assignIds_idShape 0 _ ie hie
  obtain ⟨m, hm⟩ := h1 s hs
  obtain ⟨j, t2, hid⟩ := h2
  rw [hm, hid]
  exact ref_ne_id m j t2

/-- Witness for C10: in the concrete run, the first tip's first
back-reference differs from the first mistake's id. -/
theorem tip_backrefs_c10_witness :
    (((cResult.tips.getD 0 cDummyTip).relatedErrors).getD []).getD 0 "" ≠
      (cResult.errors.getD 0 cDummyIdError).id :=
  tip_backrefs_c10 cMd cTd "player-1" cResult (cResult.tips.getD 0 cDummyTip)
    ((((cResult.tips.getD 0 cDummyTip).relatedErrors).getD []).getD 0 "")
    (cResult.errors.getD 0 cDummyIdError) (by rfl) (by decide) (by decide) (by decide)

end Nexra
